import Mathlib

/-!
# Deception game server: shallow embedding and verification

A shallow embedding of the game state machine, action dispatch and mailbox
fan-out of the `deception-ai` server (files `app/api/models.py`,
`app/game_store.py`, `app/game_setup.py`, `app/actions.py`,
`app/turn_processing/turns.py`, `app/turn_processing/validators.py`,
`app/api/routes.py`, `app/streams.py`).

Modelling conventions:
* Python exceptions become `Except Err` results; `Err` carries the exception
  class (`ExcKind`) and message, since the HTTP boundary catches by class.
* Redis is abstracted to the fetched blob: each store operation receives the
  `Option GameState` that `get_game` would return (`none` = missing key) and
  returns the new state on success.  `save_game` only runs on the success
  path in the source, so an `error` result leaves the stored state untouched
  (`applyResult`).
* Timestamps are opaque `Nat`s threaded as a `now` parameter.
* The asset registry (CSV lookup service, an external collaborator) is a
  parameter: the list of `(id, tile, option)` rows of the
  location-and-cause-of-death tile set.
-/

namespace Deception

/-- Exception class of a raised error (`ValueError`, `RuntimeError`, ...).
The FastAPI routes catch `ValueError` and map it to HTTP 422. -/
inductive ExcKind where
  | valueError
  | runtimeError
  deriving DecidableEq, Repr

/-- A raised Python exception: class plus message. -/
structure Err where
  kind : ExcKind
  msg : String
  deriving DecidableEq, Repr

/-- Source `GamePhase` from `app/api/models.py` (a `StrEnum` with exactly these four
members; the repository's `fsm.py`, `validators.py` and tests additionally
reference a `setup_awaiting_fs_scene_bullets_pick` member that does not exist
in `models.py`). -/
inductive GamePhase where
  | setup_awaiting_murder_pick
  | setup_awaiting_fs_scene_pick
  | discussion
  | completed
  deriving DecidableEq, Repr

/-- The string value of the `StrEnum` member. -/
def GamePhase.value : GamePhase → String
  | .setup_awaiting_murder_pick => "setup_awaiting_murder_pick"
  | .setup_awaiting_fs_scene_pick => "setup_awaiting_fs_scene_pick"
  | .discussion => "discussion"
  | .completed => "completed"

/-- Source `Solution` model. -/
structure Solution where
  means_id : String
  clue_id : String
  deriving DecidableEq, Repr

/-- Source `PlayerHand` model. -/
structure PlayerHand where
  means_ids : List String := []
  clue_ids : List String := []
  deriving DecidableEq, Repr

/-- Source `DiscussionComment` model. -/
structure DiscussionComment where
  seq : Nat
  player_id : String
  created_at : Nat
  comments : String
  deriving DecidableEq, Repr

/-- Source `PlayerState` model. -/
structure PlayerState where
  player_id : String
  seat : Nat
  is_ai : Bool
  role : String
  display_name : Option String := none
  hand : PlayerHand := {}
  knows_solution : Bool := false
  solution : Option Solution := none
  has_badge : Bool := true
  knows_identities : Bool := false
  known_murderer_id : Option String := none
  known_accomplice_id : Option String := none
  deriving DecidableEq, Repr

/-- Source `GameState` model (root aggregate). -/
structure GameState where
  game_id : String
  num_ai_players : Nat
  num_human_players : Nat
  created_at : Nat
  last_updated_at : Nat
  seed : Nat
  players : List PlayerState
  phase : GamePhase := .setup_awaiting_murder_pick
  solution : Option Solution := none
  fs_location_tile : Option String := none
  fs_cause_tile : Option String := none
  fs_location_id : Option String := none
  fs_cause_id : Option String := none
  winning_investigator_id : Option String := none
  discussion : List DiscussionComment := []
  deriving DecidableEq, Repr

/-- One row of the location-and-cause-of-death `TileSet`
(`app/assets/registry.py`, `TileOption`). -/
structure TileOption where
  id : String
  tile : String
  option : String
  deriving DecidableEq, Repr

/-- Python truthiness of an optional string: `None` and `""` are falsy. -/
def optStrTruthy : Option String → Bool
  | none => false
  | some s => s ≠ ""

/-- Source `save_game`: refreshes `last_updated_at` and persists.  In the embedding
persistence is the returned state. -/
def save_game (now : Nat) (state : GameState) : GameState :=
  { state with last_updated_at := now }

/-- The stored blob after an operation: `save_game` only runs on the success
path, so an error leaves the previously stored value in place. -/
def applyResult (stored : Option GameState) : Except Err GameState → Option GameState
  | .ok s => some s
  | .error _ => stored

instance {ε α : Type} [DecidableEq ε] [DecidableEq α] : DecidableEq (Except ε α) := fun x y =>
  match x, y with
  | .error a, .error b => decidable_of_iff (a = b) (by simp)
  | .error _, .ok _ => isFalse (by simp)
  | .ok _, .error _ => isFalse (by simp)
  | .ok a, .ok b => decidable_of_iff (a = b) (by simp)

/-- Source `require_game`: missing game raises `ValueError("Game not found")`. -/
def require_game : Option GameState → Except Err GameState
  | none => .error ⟨.valueError, "Game not found"⟩
  | some s => .ok s

/-- Source `require_player`: index of the first player with the given id, else
`ValueError("Player not found")`. -/
def require_player (state : GameState) (player_id : String) : Except Err Nat :=
  match state.players.findIdx? (fun p => p.player_id = player_id) with
  | some i => .ok i
  | none => .error ⟨.valueError, "Player not found"⟩

/-! ## Asset-derived id enumerations (`app/game_store.py`) -/

/-- Lexicographic code-point comparison on character lists. -/
def charListLe : List Char → List Char → Bool
  | [], _ => true
  | _ :: _, [] => false
  | c1 :: t1, c2 :: t2 =>
    if c1.val < c2.val then true
    else if c2.val < c1.val then false
    else charListLe t1 t2

/-- Python string ordering (`sorted`): lexicographic by code point. -/
def strLe (a b : String) : Bool := charListLe a.data b.data

/-- Prefix test on character lists. -/
def charListPrefixOf : List Char → List Char → Bool
  | [], _ => true
  | _ :: _, [] => false
  | a :: as, b :: bs => a = b && charListPrefixOf as bs

/-- Python `t.casefold().startswith(prefix)` for the ASCII tile names used by
the dataset (casefold coincides with lower-casing there). -/
def casefoldStartsWith (t pre : String) : Bool :=
  charListPrefixOf pre.data (t.data.map Char.toLower)

/-- Source `TileSet.options_for(tile)`: the options recorded under a tile name.
(The source resolves the tile name through a whitespace/case normalisation;
for the exact canonical names used throughout the server the lookup is the
plain filter below.) -/
def optionsFor (rows : List TileOption) (tile : String) : List String :=
  (rows.filter (fun o => o.tile = tile)).map (fun o => o.option)

/-- The distinct tile names of the set (`by_tile.keys`). -/
def tileNames (rows : List TileOption) : List String :=
  (rows.map (fun o => o.tile)).dedup

/-- Source `_location_ids_from_assets`: ids of every option under any tile whose
casefolded name starts with `"location"`, deduplicated and sorted. -/
def locationIdsFromAssets (rows : List TileOption) : List String :=
  let location_tiles :=
    ((tileNames rows).filter (fun t => casefoldStartsWith t "location")).insertionSort
      (fun a b => strLe a b = true)
  let ids := location_tiles.flatMap (fun tile =>
    (rows.filter (fun o => o.tile = tile && (optionsFor rows tile).contains o.option)).map
      (fun o => o.id))
  (ids.dedup).insertionSort (fun a b => strLe a b = true)

/-- Source `_cause_ids_from_assets`: same for tiles starting with `"cause of death"`. -/
def causeIdsFromAssets (rows : List TileOption) : List String :=
  let cause_tiles :=
    ((tileNames rows).filter (fun t => casefoldStartsWith t "cause of death")).insertionSort
      (fun a b => strLe a b = true)
  let ids := cause_tiles.flatMap (fun tile =>
    (rows.filter (fun o => o.tile = tile && (optionsFor rows tile).contains o.option)).map
      (fun o => o.id))
  (ids.dedup).insertionSort (fun a b => strLe a b = true)

/-! ## `app/game_setup.py` -/

/-- First pass of `apply_solution_and_secrets`: copy the solution to the
forensic scientist / murderer / accomplice, clear it for everyone else. -/
def secretsSolutionUpdate (solution : Solution) (p : PlayerState) : PlayerState :=
  if p.role = "forensic_scientist" || p.role = "murderer" || p.role = "accomplice" then
    { p with knows_solution := true, solution := some solution }
  else
    { p with knows_solution := false, solution := none }

/-- Second pass of `apply_solution_and_secrets`: the witness learns the
murderer/accomplice identities, everyone else has them cleared. -/
def secretsWitnessUpdate (murderer accomplice : Option PlayerState) (p : PlayerState) :
    PlayerState :=
  if p.role = "witness" then
    { p with
      knows_identities := true
      known_murderer_id := murderer.map (fun m => m.player_id)
      known_accomplice_id := accomplice.map (fun a => a.player_id) }
  else
    { p with knows_identities := false, known_murderer_id := none,
             known_accomplice_id := none }

/-- Source `apply_solution_and_secrets`: records the canonical solution, copies it to
forensic scientist / murderer / accomplice, and gives the witness the
murderer/accomplice identities (but not the solution). -/
def apply_solution_and_secrets (state : GameState) (solution : Solution) : GameState :=
  let murderer := state.players.find? (fun p => p.role = "murderer")
  let accomplice := state.players.find? (fun p => p.role = "accomplice")
  { state with
    solution := some solution
    players := (state.players.map (secretsSolutionUpdate solution)).map
      (secretsWitnessUpdate murderer accomplice) }

/-- Source `pop_n` inside `deal_hands`: take `n` cards off the top, failing loudly
when the deck is smaller than `n`. -/
def pop_n (deck : List String) (n : Nat) : Except Err (List String × List String) :=
  if deck.length < n then .error ⟨.valueError, "Not enough cards in deck"⟩
  else .ok (deck.take n, deck.drop n)

/-- The per-player flag reset at the top of the `deal_hands` loop: clear the
secret-knowledge fields and re-arm investigator badges. -/
def dealResetFlags (p : PlayerState) : PlayerState :=
  let p := { p with
    knows_solution := false
    solution := none
    knows_identities := false
    known_murderer_id := none
    known_accomplice_id := none }
  if p.role = "investigator" then { p with has_badge := true } else p

/-- Per-player body of the `for p in players` loop of `deal_hands`: reset the
secret flags, give the forensic scientist an empty hand and everyone else the
next `hand_size` means and clues. -/
def deal_hands_player (hand_size : Nat) (p : PlayerState)
    (means_deck clue_deck : List String) :
    Except Err (PlayerState × List String × List String) :=
  let p := dealResetFlags p
  if p.role = "forensic_scientist" then
    .ok ({ p with hand := { means_ids := [], clue_ids := [] } }, means_deck, clue_deck)
  else do
    let (means, means_deck) ← pop_n means_deck hand_size
    let (clues, clue_deck) ← pop_n clue_deck hand_size
    .ok ({ p with hand := { means_ids := means, clue_ids := clues } }, means_deck, clue_deck)

/-- The loop of `deal_hands`, threading both decks through the players in
list (= seat) order. -/
def deal_hands_loop (hand_size : Nat) :
    List PlayerState → List String → List String → Except Err (List PlayerState)
  | [], _, _ => .ok []
  | p :: ps, means_deck, clue_deck => do
    let (p', means_deck, clue_deck) ← deal_hands_player hand_size p means_deck clue_deck
    let ps' ← deal_hands_loop hand_size ps means_deck clue_deck
    .ok (p' :: ps')

/-- Source `deal_hands`: deal `hand_size` (default 4) means and clues to everyone but
the forensic scientist, drawing without replacement from the two decks.  The
source shuffles the decks with the seeded RNG first; the embedding receives
the already-shuffled decks. -/
def deal_hands (players : List PlayerState) (means_deck clue_deck : List String)
    (hand_size : Nat := 4) : Except Err (List PlayerState) :=
  deal_hands_loop hand_size players means_deck clue_deck

/-! ## `app/game_store.py` mutation operations -/

/-- Source `set_murder_solution`: murderer-only, only in `setup_awaiting_murder_pick`,
both ids must come from the murderer's own dealt hand; on success records the
solution, propagates secrets and advances the phase. -/
def set_murder_solution (stored : Option GameState) (player_id clue_id means_id : String)
    (now : Nat) : Except Err GameState := do
  let state ← require_game stored
  let pidx ← require_player state player_id
  match state.players.get? pidx with
  | none => .error ⟨.valueError, "Player not found"⟩
  | some player =>
    if state.phase ≠ GamePhase.setup_awaiting_murder_pick then
      .error ⟨.valueError, "Game is not awaiting murder selection"⟩
    else if player.role ≠ "murderer" then
      .error ⟨.valueError, "Only the murderer can set the solution"⟩
    else if ¬ (clue_id ∈ player.hand.clue_ids) then
      .error ⟨.valueError, "clue must be chosen from the murderer's dealt clue cards"⟩
    else if ¬ (means_id ∈ player.hand.means_ids) then
      .error ⟨.valueError, "means must be chosen from the murderer's dealt means cards"⟩
    else
      let sol : Solution := { means_id := means_id, clue_id := clue_id }
      let state := apply_solution_and_secrets state sol
      let state := { state with phase := GamePhase.setup_awaiting_fs_scene_pick }
      .ok (save_game now state)

/-- The allowed location option ids of `set_fs_scene_selection`: the ids under
the dealt location tile card when one is (truthily) set, else the global
fallback (`_location_ids_from_assets`) kept for games created before tile
pre-selection existed. -/
def allowedLocationIds (state : GameState) (assets : List TileOption) : List String :=
  if optStrTruthy state.fs_location_tile then
    (assets.filter (fun o => some o.tile = state.fs_location_tile)).map (fun o => o.id)
  else
    locationIdsFromAssets assets

/-- The allowed cause-of-death option ids of `set_fs_scene_selection`. -/
def allowedCauseIds (state : GameState) (assets : List TileOption) : List String :=
  if optStrTruthy state.fs_cause_tile then
    (assets.filter (fun o => some o.tile = state.fs_cause_tile)).map (fun o => o.id)
  else
    causeIdsFromAssets assets

/-- Source `set_fs_scene_selection`: forensic-scientist-only, only in
`setup_awaiting_fs_scene_pick`; the allowed option ids come from the dealt
tile card when one is set (Python truthiness: `None` or `""` falls back to
every globally valid option id).  On success records the chosen ids and sets
the phase to `discussion`. -/
def set_fs_scene_selection (stored : Option GameState) (player_id location_id cause_id : String)
    (assets : List TileOption) (now : Nat) : Except Err GameState := do
  let state ← require_game stored
  let pidx ← require_player state player_id
  match state.players.get? pidx with
  | none => .error ⟨.valueError, "Player not found"⟩
  | some player =>
    if state.phase ≠ GamePhase.setup_awaiting_fs_scene_pick then
      .error ⟨.valueError, "Game is not awaiting forensic scientist scene selection"⟩
    else if player.role ≠ "forensic_scientist" then
      .error ⟨.valueError, "Only the forensic scientist can set the scene selection"⟩
    else
      let allowed_locations := allowedLocationIds state assets
      let allowed_causes := allowedCauseIds state assets
      if ¬ (location_id ∈ allowed_locations) then
        .error ⟨.valueError, "location must be a valid option id"⟩
      else if ¬ (cause_id ∈ allowed_causes) then
        .error ⟨.valueError, "cause must be a valid option id"⟩
      else
        let state := { state with
          fs_location_id := some location_id
          fs_cause_id := some cause_id
          phase := GamePhase.discussion }
        .ok (save_game now state)

/-- Source `add_discussion_comment`: any present player, any phase but `completed`;
appends with the next sequence number. -/
def add_discussion_comment (stored : Option GameState) (player_id comments : String)
    (now : Nat) : Except Err GameState := do
  let state ← require_game stored
  let _ ← require_player state player_id
  if state.phase = GamePhase.completed then
    .error ⟨.valueError, "Game is completed"⟩
  else
    let seq := match state.discussion.getLast? with
      | some c => c.seq + 1
      | none => 1
    let state := { state with
      discussion := state.discussion ++
        [{ seq := seq, player_id := player_id, created_at := now, comments := comments }] }
    .ok (save_game now state)

/-- Source `submit_solution_guess`: badge-holding investigator, during `discussion`;
an exact three-field match completes the game, any mismatch burns the badge. -/
def submit_solution_guess (stored : Option GameState)
    (player_id murderer_id clue_id means_id : String) (now : Nat) :
    Except Err GameState := do
  let state ← require_game stored
  let pidx ← require_player state player_id
  match state.players.get? pidx with
  | none => .error ⟨.valueError, "Player not found"⟩
  | some player =>
    if state.phase ≠ GamePhase.discussion then
      .error ⟨.valueError, "Game is not in discussion phase"⟩
    else if player.role ≠ "investigator" then
      .error ⟨.valueError, "Only an investigator can submit a solve"⟩
    else if ¬ player.has_badge then
      .error ⟨.valueError, "Investigator has no badge and cannot solve"⟩
    else
      match state.solution with
      | none => .error ⟨.valueError, "Solution not set yet"⟩
      | some sol =>
        let correct :=
          (state.players.find? (fun p => p.role = "murderer")).map
              (fun p => p.player_id) = some murderer_id
            && clue_id = sol.clue_id
            && means_id = sol.means_id
        if correct then
          let state := { state with
            phase := GamePhase.completed
            winning_investigator_id := some player.player_id }
          .ok (save_game now state)
        else
          let state := { state with
            players := state.players.set pidx { player with has_badge := false } }
          .ok (save_game now state)

/-! ## `app/turn_processing/turns.py` and `validators.py` -/

/-- Source `current_turn_player_id`: round-robin by seat, derived from the length of
the discussion log (`sorted` in Python is stable, as is `mergeSort`). -/
def current_turn_player_id (state : GameState) : Except Err String :=
  if state.players.isEmpty then .error ⟨.valueError, "No players"⟩
  else
    let ordered := state.players.insertionSort (fun a b => a.seat ≤ b.seat)
    let idx := state.discussion.length % ordered.length
    match ordered.get? idx with
    | some p => .ok p.player_id
    | none => .error ⟨.valueError, "No players"⟩

/-- Source `assert_is_players_turn`. -/
def assert_is_players_turn (state : GameState) (player_id : String) : Except Err Unit := do
  let expected ← current_turn_player_id state
  if player_id ≠ expected then
    .error ⟨.valueError, s!"Not your turn (expected player_id={expected})"⟩
  else
    .ok ()

/-- Source `CompletedGameValidator` (default empty allow-list): deny everything once
the game is completed. -/
def completedGameValidator (action : String) (state : GameState) : Except Err Unit :=
  if state.phase = GamePhase.completed && !([] : List String).contains action then
    .error ⟨.valueError, "Game is completed"⟩
  else
    .ok ()

/-- Source `DiscussionTurnValidator`: outside the discussion phase it is a no-op;
during discussion only the derived current-turn player may act. -/
def discussionTurnValidator (player_id : String) (state : GameState) : Except Err Unit :=
  if state.phase ≠ GamePhase.discussion then .ok ()
  else assert_is_players_turn state player_id

/-- The `"discuss"` entry of `DEFAULT_ACTION_PIPELINES`: the completed-game
gate followed by the turn validator.  (The dispatcher in `app/actions.py`
never invokes this pipeline; it is exercised only by its own tests.) -/
def validate_discuss_pipeline (player_id : String) (state : GameState) : Except Err Unit := do
  let _ ← completedGameValidator "discuss" state
  discussionTurnValidator player_id state

/-! ## `app/streams.py` and the mailbox entry builders of `app/actions.py` -/

/-- Source `Mailbox.key`. -/
def mailboxKey (game_id player_id : String) : String :=
  s!"mailbox:{game_id}:{player_id}"

/-- One mailbox entry as handed to `publish_many`: the stream key plus the
flat string-keyed payload. -/
structure MailboxEntry where
  key : String
  fields : List (String × String)
  deriving DecidableEq, Repr

/-- Source `_mailbox_entries_for_state_changed`: the same generic payload appended to
every player's mailbox. -/
def mailbox_entries_for_state_changed (state : GameState) (now : Nat) : List MailboxEntry :=
  let payload := [("type", "state_changed"), ("game_id", state.game_id),
    ("phase", state.phase.value), ("ts", toString now)]
  state.players.map (fun p => { key := mailboxKey state.game_id p.player_id, fields := payload })

/-- Source `_mailbox_entries_for_murder_picked`: solution-chosen entries for the
murderer / accomplice / forensic scientist (in that order), then the witness
identity reveal. -/
def mailbox_entries_for_murder_picked (state : GameState) (now : Nat) : List MailboxEntry :=
  let murderer := state.players.find? (fun p => p.role = "murderer")
  let accomplice := state.players.find? (fun p => p.role = "accomplice")
  let witness := state.players.find? (fun p => p.role = "witness")
  let fs := state.players.find? (fun p => p.role = "forensic_scientist")
  let solutionEntries :=
    match state.solution with
    | none => []
    | some sol =>
      ([murderer, accomplice, fs].filterMap id).map (fun p =>
        { key := mailboxKey state.game_id p.player_id
          fields := [("type", "murder_solution_chosen"), ("game_id", state.game_id),
            ("player_id", p.player_id), ("clue_id", sol.clue_id),
            ("means_id", sol.means_id), ("ts", toString now)] })
  let witnessEntries :=
    match witness with
    | none => []
    | some w =>
      [{ key := mailboxKey state.game_id w.player_id
         fields := [("type", "witness_identities_revealed"), ("game_id", state.game_id),
           ("player_id", w.player_id),
           ("murderer_id", w.known_murderer_id.getD ""),
           ("accomplice_id", w.known_accomplice_id.getD ""),
           ("ts", toString now)] }]
  solutionEntries ++ witnessEntries

/-- Source `_mailbox_entries_for_fs_scene_prompt`: prompt the forensic scientist with
the allowed location/cause id lists.  Note the source builds these lists with
`_location_ids_from_assets` / `_cause_ids_from_assets` — the *global*
enumerations — not from the game's dealt `fs_location_tile` / `fs_cause_tile`. -/
def mailbox_entries_for_fs_scene_prompt (state : GameState) (assets : List TileOption)
    (now : Nat) : List MailboxEntry :=
  match state.players.find? (fun p => p.role = "forensic_scientist") with
  | none => []
  | some fs =>
    [{ key := mailboxKey state.game_id fs.player_id
       fields := [("type", "prompt_fs_scene_pick"), ("game_id", state.game_id),
         ("player_id", fs.player_id), ("phase", state.phase.value),
         ("location_ids", String.intercalate "," (locationIdsFromAssets assets)),
         ("cause_ids", String.intercalate "," (causeIdsFromAssets assets)),
         ("ts", toString now)] }]

/-- Source `_mailbox_entries_for_fs_scene_picked`: broadcast the chosen scene to every
player once both ids are (truthily) set. -/
def mailbox_entries_for_fs_scene_picked (state : GameState) (now : Nat) : List MailboxEntry :=
  if !optStrTruthy state.fs_location_id || !optStrTruthy state.fs_cause_id then []
  else
    let payload := [("type", "fs_scene_selected"), ("game_id", state.game_id),
      ("location_id", state.fs_location_id.getD ""),
      ("cause_id", state.fs_cause_id.getD ""), ("ts", toString now)]
    state.players.map (fun p => { key := mailboxKey state.game_id p.player_id, fields := payload })

/-! ## `dispatch_action_async` (`app/actions.py`) -/

/-- The four action payload shapes of the dispatcher (the `ActionName`
literal plus the `payload.get(...)` fields each branch reads). -/
inductive ActionPayload where
  | murder (clue means : String)
  | fs_scene (location cause : String)
  | discuss (comments : String)
  | solve (murderer clue means : String)
  deriving DecidableEq, Repr

/-- Result of a successful dispatch: the updated state and the mailbox entries
handed to `publish_many`. -/
structure DispatchResult where
  state : GameState
  entries : List MailboxEntry
  deriving DecidableEq, Repr

/-- Source `dispatch_action_async`: load state, run the branch for the action (each
branch re-checks phase and calls the matching `game_store` mutation), persist,
then fan out mailbox entries: always a `state_changed` to every player, plus
the role-targeted entries and the FS scene prompt after a murder pick, and the
scene broadcast after an FS scene pick.  (The `GameFSM` wrapper is rebuilt
from the mutated state and `sync_phase_to_model` writes the same phase back,
so it is behaviourally a no-op here.) -/
def dispatch_action_async (stored : Option GameState) (player_id : String)
    (payload : ActionPayload) (assets : List TileOption) (now : Nat) :
    Except Err DispatchResult := do
  let state0 ← require_game stored
  match payload with
  | .murder clue means =>
    if state0.phase ≠ GamePhase.setup_awaiting_murder_pick then
      .error ⟨.valueError, "Game is not awaiting murder selection"⟩
    else do
      let state ← set_murder_solution stored player_id clue means now
      let entries := mailbox_entries_for_state_changed state now
        ++ mailbox_entries_for_murder_picked state now
        ++ mailbox_entries_for_fs_scene_prompt state assets now
      .ok { state := state, entries := entries }
  | .fs_scene location cause =>
    if state0.phase ≠ GamePhase.setup_awaiting_fs_scene_pick then
      .error ⟨.valueError, "Game is not awaiting forensic scientist scene selection"⟩
    else do
      let state ← set_fs_scene_selection stored player_id location cause assets now
      let entries := mailbox_entries_for_state_changed state now
        ++ mailbox_entries_for_fs_scene_picked state now
      .ok { state := state, entries := entries }
  | .discuss comments =>
    if state0.phase = GamePhase.completed then
      .error ⟨.valueError, "Game is completed"⟩
    else do
      let state ← add_discussion_comment stored player_id comments now
      .ok { state := state, entries := mailbox_entries_for_state_changed state now }
  | .solve murderer clue means =>
    if state0.phase ≠ GamePhase.discussion then
      .error ⟨.valueError, "Game is not in discussion phase"⟩
    else do
      let state ← submit_solution_guess stored player_id murderer clue means now
      .ok { state := state, entries := mailbox_entries_for_state_changed state now }

/-! ## Route boundary (`app/api/routes.py`) -/

/-- An HTTP response at the boundary: the success body or a status/detail. -/
inductive HttpResponse where
  | ok (state : GameState)
  | err (status : Nat) (detail : String)
  deriving DecidableEq, Repr

/-- Source `discuss_route`: dispatches the `discuss` action and maps any `ValueError`
to HTTP 422 (any other exception class would escape the handler; FastAPI then
answers 500). -/
def discuss_route (stored : Option GameState) (player_id comments : String)
    (assets : List TileOption) (now : Nat) : HttpResponse :=
  match dispatch_action_async stored player_id (.discuss comments) assets now with
  | .ok res => .ok res.state
  | .error e =>
    match e.kind with
    | .valueError => .err 422 e.msg
    | _ => .err 500 e.msg

/-- Source `get_game_route`: a missing game is surfaced as HTTP 404 by a direct
absence check (not by catching an exception). -/
def get_game_route (stored : Option GameState) : HttpResponse :=
  match stored with
  | none => .err 404 "Game not found"
  | some s => .ok s

/-! ## Concrete fixtures used by witnesses and counterexamples -/

/-- A small concrete location/cause tile set with two Location tiles (the
source notes that "real datasets often have multiple location tiles"). -/
def assets1 : List TileOption :=
  [ { id := "location-1__kitchen", tile := "Location 1", option := "Kitchen" },
    { id := "location-1__garden", tile := "Location 1", option := "Garden" },
    { id := "location-2__garage", tile := "Location 2", option := "Garage" },
    { id := "cause-of-death__poisoning", tile := "Cause of Death", option := "Poisoning" },
    { id := "cause-of-death__stabbing", tile := "Cause of Death", option := "Stabbing" } ]

/-- The murderer's dealt hand in the fixtures. -/
def handM : PlayerHand :=
  { means_ids := ["axe", "rope", "knife", "poison"],
    clue_ids := ["blood", "note", "receipt", "footprints"] }

/-- Four players: forensic scientist, murderer, two investigators. -/
def playersA : List PlayerState :=
  [ { player_id := "p1", seat := 0, is_ai := false, role := "forensic_scientist" },
    { player_id := "p2", seat := 1, is_ai := false, role := "murderer", hand := handM },
    { player_id := "p3", seat := 2, is_ai := true, role := "investigator" },
    { player_id := "p4", seat := 3, is_ai := true, role := "investigator" } ]

/-- Six players: adds an accomplice and a witness. -/
def playersB : List PlayerState :=
  playersA ++
  [ { player_id := "p5", seat := 4, is_ai := true, role := "accomplice" },
    { player_id := "p6", seat := 5, is_ai := true, role := "witness" } ]

/-- A freshly created 4-player game awaiting the murder pick. -/
def gMurder : GameState :=
  { game_id := "g1", num_ai_players := 2, num_human_players := 2, created_at := 0,
    last_updated_at := 0, seed := 7, players := playersA,
    phase := .setup_awaiting_murder_pick,
    fs_location_tile := some "Location 1", fs_cause_tile := some "Cause of Death" }

/-- A freshly created 6-player game awaiting the murder pick. -/
def gMurder6 : GameState :=
  { gMurder with game_id := "g6", num_ai_players := 4, players := playersB }

/-- The 4-player game after the murder pick, awaiting the FS scene pick. -/
def gScene : GameState :=
  { gMurder with
    phase := .setup_awaiting_fs_scene_pick
    solution := some { means_id := "axe", clue_id := "blood" } }

/-- A 4-player game in the discussion phase (scene chosen). -/
def gDiscuss : GameState :=
  { gScene with
    phase := .discussion
    fs_location_id := some "location-1__kitchen"
    fs_cause_id := some "cause-of-death__poisoning" }

/-- A completed 4-player game. -/
def gCompleted : GameState :=
  { gDiscuss with
    phase := .completed
    winning_investigator_id := some "p3" }

/-- Fixture: `gDiscuss` after investigator `p3` has lost their badge. -/
def gBadgeLost : GameState :=
  { gDiscuss with
    players := playersA.set 2
      { player_id := "p3", seat := 2, is_ai := true, role := "investigator",
        has_badge := false } }

/-- The state produced by a successful `discuss`: the comment appended with
the next sequence number, then saved. -/
def discussSuccessor (state : GameState) (pid comments : String) (now : Nat) : GameState :=
  save_game now
    { state with
      discussion := state.discussion ++
        [{ seq := match state.discussion.getLast? with
             | some c => c.seq + 1
             | none => 1
           player_id := pid, created_at := now, comments := comments }] }

/-- One successful dispatch step between stored states: the lifecycle mutates a
game exclusively through `dispatch_action_async`. -/
def StepDispatch (s s' : GameState) : Prop :=
  ∃ (pid : String) (payload : ActionPayload) (assets : List TileOption) (now : Nat)
    (res : DispatchResult),
    dispatch_action_async (some s) pid payload assets now = .ok res ∧ res.state = s'

/-! ## The secret-knowledge invariant (for C7) -/

/-- The roles that receive the solution copy in `apply_solution_and_secrets`. -/
def rolesKnowingSolution : List String := ["forensic_scientist", "murderer", "accomplice"]

/-- The secret-knowledge shape established by `apply_solution_and_secrets`:
exactly forensic scientist / murderer / accomplice know the solution and hold
a copy equal to the game solution; the witness (and only the witness) knows
the murderer/accomplice identities but never the solution; everyone else
holds nothing. -/
def SecretsApplied (s : GameState) : Prop :=
  s.solution.isSome = true ∧
  ∀ p ∈ s.players,
    (p.role ∈ rolesKnowingSolution → p.knows_solution = true ∧ p.solution = s.solution)
    ∧ (p.role ∉ rolesKnowingSolution → p.knows_solution = false ∧ p.solution = none)
    ∧ (p.role = "witness" →
        p.knows_identities = true
        ∧ p.known_murderer_id
          = (s.players.find? (fun q => q.role = "murderer")).map (fun q => q.player_id)
        ∧ p.known_accomplice_id
          = (s.players.find? (fun q => q.role = "accomplice")).map (fun q => q.player_id))
    ∧ (p.role ≠ "witness" → p.knows_identities = false)

/-- Number of players that receive a hand. -/
def nonFSCount (players : List PlayerState) : Nat :=
  (players.filter (fun p => p.role ≠ "forensic_scientist")).length

/-- A 12-card means deck and clue deck (the minimum for a 4-player game with
3 non-FS players). -/
def meansDeck12 : List String :=
  ["m01", "m02", "m03", "m04", "m05", "m06", "m07", "m08", "m09", "m10", "m11", "m12"]

/-- See `meansDeck12`. -/
def clueDeck12 : List String :=
  ["c01", "c02", "c03", "c04", "c05", "c06", "c07", "c08", "c09", "c10", "c11", "c12"]

/-! ## Generic helper lemmas -/

theorem except_bind_ok {α β : Type} (a : α) (f : α → Except Err β) :
    ((Except.ok a : Except Err α) >>= f) = f a := rfl

theorem except_bind_err {α β : Type} (e : Err) (f : α → Except Err β) :
    ((Except.error e : Except Err α) >>= f) = .error e := rfl

/-! ## Inversion lemmas: what a successful mutation must look like -/

theorem set_murder_solution_ok_shape {stored : Option GameState}
    {pid clue means : String} {now : Nat} {s' : GameState}
    (h : set_murder_solution stored pid clue means now = .ok s') :
    ∃ state i player, stored = some state
      ∧ state.players.findIdx? (fun p => p.player_id = pid) = some i
      ∧ state.players.get? i = some player
      ∧ state.phase = .setup_awaiting_murder_pick
      ∧ player.role = "murderer"
      ∧ clue ∈ player.hand.clue_ids ∧ means ∈ player.hand.means_ids
      ∧ s' = save_game now
          { apply_solution_and_secrets state { means_id := means, clue_id := clue } with
            phase := .setup_awaiting_fs_scene_pick } := by
  cases stored with
  | none => simp [set_murder_solution, require_game, except_bind_err] at h
  | some state =>
    simp only [set_murder_solution, require_game, except_bind_ok] at h
    cases hidx : state.players.findIdx? (fun p => p.player_id = pid) with
    | none =>
      simp only [require_player, hidx, except_bind_err] at h
      exact Except.noConfusion h
    | some i =>
      simp only [require_player, hidx, except_bind_ok] at h
      cases hget : state.players.get? i with
      | none =>
        simp only [hget] at h
        exact Except.noConfusion h
      | some player =>
        simp only [hget] at h
        split_ifs at h with hphase hrole hclue hmeans
        all_goals first
          | exact Except.noConfusion h
          | (cases h
             exact ⟨state, i, player, rfl, hidx, hget, not_not.mp hphase, not_not.mp hrole,
               hclue, hmeans, rfl⟩)

theorem set_fs_scene_selection_ok_shape {stored : Option GameState}
    {pid loc cause : String} {assets : List TileOption} {now : Nat} {s' : GameState}
    (h : set_fs_scene_selection stored pid loc cause assets now = .ok s') :
    ∃ state i player, stored = some state
      ∧ state.players.findIdx? (fun p => p.player_id = pid) = some i
      ∧ state.players.get? i = some player
      ∧ state.phase = .setup_awaiting_fs_scene_pick
      ∧ player.role = "forensic_scientist"
      ∧ loc ∈ allowedLocationIds state assets
      ∧ cause ∈ allowedCauseIds state assets
      ∧ s' = save_game now
          { state with
            fs_location_id := some loc
            fs_cause_id := some cause
            phase := .discussion } := by
  cases stored with
  | none => simp [set_fs_scene_selection, require_game, except_bind_err] at h
  | some state =>
    simp only [set_fs_scene_selection, require_game, except_bind_ok] at h
    cases hidx : state.players.findIdx? (fun p => p.player_id = pid) with
    | none =>
      simp only [require_player, hidx, except_bind_err] at h
      exact Except.noConfusion h
    | some i =>
      simp only [require_player, hidx, except_bind_ok] at h
      cases hget : state.players.get? i with
      | none =>
        simp only [hget] at h
        exact Except.noConfusion h
      | some player =>
        simp only [hget] at h
        split_ifs at h with hphase hrole hloc hcause
        all_goals first
          | exact Except.noConfusion h
          | (cases h
             exact ⟨state, i, player, rfl, hidx, hget, not_not.mp hphase, not_not.mp hrole,
               hloc, hcause, rfl⟩)

theorem add_discussion_comment_ok_shape {stored : Option GameState}
    {pid comments : String} {now : Nat} {s' : GameState}
    (h : add_discussion_comment stored pid comments now = .ok s') :
    ∃ state i, stored = some state
      ∧ state.players.findIdx? (fun p => p.player_id = pid) = some i
      ∧ state.phase ≠ .completed
      ∧ s' = save_game now
          { state with
            discussion := state.discussion ++
              [{ seq := match state.discussion.getLast? with
                   | some c => c.seq + 1
                   | none => 1
                 player_id := pid, created_at := now, comments := comments }] } := by
  cases stored with
  | none => simp [add_discussion_comment, require_game, except_bind_err] at h
  | some state =>
    simp only [add_discussion_comment, require_game, except_bind_ok] at h
    cases hidx : state.players.findIdx? (fun p => p.player_id = pid) with
    | none =>
      simp only [require_player, hidx, except_bind_err] at h
      exact Except.noConfusion h
    | some i =>
      simp only [require_player, hidx, except_bind_ok] at h
      split_ifs at h with hphase
      all_goals first
        | exact Except.noConfusion h
        | (cases h
           exact ⟨state, i, rfl, hidx, hphase, rfl⟩)

theorem submit_solution_guess_ok_shape {stored : Option GameState}
    {pid murderer_id clue means : String} {now : Nat} {s' : GameState}
    (h : submit_solution_guess stored pid murderer_id clue means now = .ok s') :
    ∃ state i player sol, stored = some state
      ∧ state.players.findIdx? (fun p => p.player_id = pid) = some i
      ∧ state.players.get? i = some player
      ∧ state.phase = .discussion
      ∧ player.role = "investigator"
      ∧ player.has_badge = true
      ∧ state.solution = some sol
      ∧ ((((state.players.find? (fun p => p.role = "murderer")).map
              (fun p => p.player_id) = some murderer_id)
            ∧ clue = sol.clue_id ∧ means = sol.means_id
            ∧ s' = save_game now
                { state with
                  phase := .completed
                  winning_investigator_id := some player.player_id })
        ∨ (¬ ((state.players.find? (fun p => p.role = "murderer")).map
              (fun p => p.player_id) = some murderer_id
            ∧ clue = sol.clue_id ∧ means = sol.means_id)
            ∧ s' = save_game now
                { state with
                  players := state.players.set i { player with has_badge := false } })) := by
  cases stored with
  | none => simp [submit_solution_guess, require_game, except_bind_err] at h
  | some state =>
    simp only [submit_solution_guess, require_game, except_bind_ok] at h
    cases hidx : state.players.findIdx? (fun p => p.player_id = pid) with
    | none =>
      simp only [require_player, hidx, except_bind_err] at h
      exact Except.noConfusion h
    | some i =>
      simp only [require_player, hidx, except_bind_ok] at h
      cases hget : state.players.get? i with
      | none =>
        simp only [hget] at h
        exact Except.noConfusion h
      | some player =>
        simp only [hget] at h
        split_ifs at h with hphase hrole hbadge
        cases hsol : state.solution with
        | none =>
          simp only [hsol] at h
          exact Except.noConfusion h
        | some sol =>
          simp only [hsol] at h
          by_cases hcorr :
            ((state.players.find? (fun p => p.role = "murderer")).map
                (fun p => p.player_id) = some murderer_id)
              ∧ clue = sol.clue_id ∧ means = sol.means_id
          · rw [if_pos (by
              obtain ⟨h1, h2, h3⟩ := hcorr
              simp [h1, h2, h3])] at h
            cases h
            exact ⟨state, i, player, sol, rfl, hidx, hget, not_not.mp hphase,
              not_not.mp hrole, by simpa using hbadge, hsol, Or.inl ⟨hcorr.1, hcorr.2.1,
              hcorr.2.2, by rw [hsol]⟩⟩
          · rw [if_neg (by
              intro hb
              apply hcorr
              simp only [Bool.and_eq_true, decide_eq_true_eq] at hb
              exact ⟨hb.1.1, hb.1.2, hb.2⟩)] at h
            cases h
            exact ⟨state, i, player, sol, rfl, hidx, hget, not_not.mp hphase,
              not_not.mp hrole, by simpa using hbadge, hsol, Or.inr ⟨hcorr, by rw [hsol]⟩⟩

theorem except_isOk_iff {α : Type} (e : Except Err α) :
    e.isOk = true ↔ ∃ a, e = .ok a := by
  cases e <;> simp [Except.isOk, Except.toBool]

/-! ## Forward lemmas: the success path of each mutation -/

theorem set_murder_solution_eq_ok {state : GameState} {pid clue means : String} {now i : Nat}
    {player : PlayerState}
    (hidx : state.players.findIdx? (fun p => p.player_id = pid) = some i)
    (hget : state.players.get? i = some player)
    (hphase : state.phase = .setup_awaiting_murder_pick)
    (hrole : player.role = "murderer")
    (hclue : clue ∈ player.hand.clue_ids)
    (hmeans : means ∈ player.hand.means_ids) :
    set_murder_solution (some state) pid clue means now
      = .ok (save_game now
          { apply_solution_and_secrets state { means_id := means, clue_id := clue } with
            phase := .setup_awaiting_fs_scene_pick }) := by
  simp only [set_murder_solution, require_game, except_bind_ok, require_player, hidx, hget]
  rw [if_neg (not_not.mpr hphase), if_neg (not_not.mpr hrole),
    if_neg (not_not.mpr hclue), if_neg (not_not.mpr hmeans)]

theorem set_fs_scene_selection_eq_ok {state : GameState} {pid loc cause : String}
    {assets : List TileOption} {now i : Nat} {player : PlayerState}
    (hidx : state.players.findIdx? (fun p => p.player_id = pid) = some i)
    (hget : state.players.get? i = some player)
    (hphase : state.phase = .setup_awaiting_fs_scene_pick)
    (hrole : player.role = "forensic_scientist")
    (hloc : loc ∈ allowedLocationIds state assets)
    (hcause : cause ∈ allowedCauseIds state assets) :
    set_fs_scene_selection (some state) pid loc cause assets now
      = .ok (save_game now
          { state with
            fs_location_id := some loc
            fs_cause_id := some cause
            phase := .discussion }) := by
  simp only [set_fs_scene_selection, require_game, except_bind_ok, require_player, hidx, hget]
  rw [if_neg (not_not.mpr hphase), if_neg (not_not.mpr hrole),
    if_neg (not_not.mpr hloc), if_neg (not_not.mpr hcause)]

theorem add_discussion_comment_eq_ok {state : GameState} {pid comments : String} {now i : Nat}
    (hidx : state.players.findIdx? (fun p => p.player_id = pid) = some i)
    (hphase : state.phase ≠ .completed) :
    add_discussion_comment (some state) pid comments now
      = .ok (save_game now
          { state with
            discussion := state.discussion ++
              [{ seq := match state.discussion.getLast? with
                   | some c => c.seq + 1
                   | none => 1
                 player_id := pid, created_at := now, comments := comments }] }) := by
  simp only [add_discussion_comment, require_game, except_bind_ok, require_player, hidx]
  rw [if_neg hphase]

theorem submit_solution_guess_eq_ok_correct {state : GameState}
    {pid murderer_id clue means : String} {now i : Nat} {player : PlayerState} {sol : Solution}
    (hidx : state.players.findIdx? (fun p => p.player_id = pid) = some i)
    (hget : state.players.get? i = some player)
    (hphase : state.phase = .discussion)
    (hrole : player.role = "investigator")
    (hbadge : player.has_badge = true)
    (hsol : state.solution = some sol)
    (hm : (state.players.find? (fun p => p.role = "murderer")).map
        (fun p => p.player_id) = some murderer_id)
    (hc : clue = sol.clue_id) (hme : means = sol.means_id) :
    submit_solution_guess (some state) pid murderer_id clue means now
      = .ok (save_game now
          { state with
            phase := .completed
            winning_investigator_id := some player.player_id }) := by
  simp only [submit_solution_guess, require_game, except_bind_ok, require_player, hidx, hget,
    hsol]
  rw [if_neg (not_not.mpr hphase), if_neg (not_not.mpr hrole),
    if_neg (by simp [hbadge]), if_pos (by simp [hm, hc, hme])]

theorem submit_solution_guess_eq_ok_wrong {state : GameState}
    {pid murderer_id clue means : String} {now i : Nat} {player : PlayerState} {sol : Solution}
    (hidx : state.players.findIdx? (fun p => p.player_id = pid) = some i)
    (hget : state.players.get? i = some player)
    (hphase : state.phase = .discussion)
    (hrole : player.role = "investigator")
    (hbadge : player.has_badge = true)
    (hsol : state.solution = some sol)
    (hwrong : ¬ ((state.players.find? (fun p => p.role = "murderer")).map
          (fun p => p.player_id) = some murderer_id
        ∧ clue = sol.clue_id ∧ means = sol.means_id)) :
    submit_solution_guess (some state) pid murderer_id clue means now
      = .ok (save_game now
          { state with
            players := state.players.set i { player with has_badge := false } }) := by
  simp only [submit_solution_guess, require_game, except_bind_ok, require_player, hidx, hget,
    hsol]
  rw [if_neg (not_not.mpr hphase), if_neg (not_not.mpr hrole),
    if_neg (by simp [hbadge]),
    if_neg (by
      intro hb
      apply hwrong
      simp only [Bool.and_eq_true, decide_eq_true_eq] at hb
      exact ⟨hb.1.1, hb.1.2, hb.2⟩)]

theorem submit_solution_guess_no_badge {state : GameState}
    {pid murderer_id clue means : String} {now i : Nat} {player : PlayerState}
    (hidx : state.players.findIdx? (fun p => p.player_id = pid) = some i)
    (hget : state.players.get? i = some player)
    (hphase : state.phase = .discussion)
    (hrole : player.role = "investigator")
    (hbadge : player.has_badge = false) :
    submit_solution_guess (some state) pid murderer_id clue means now
      = .error ⟨.valueError, "Investigator has no badge and cannot solve"⟩ := by
  simp only [submit_solution_guess, require_game, except_bind_ok, require_player, hidx, hget]
  rw [if_neg (not_not.mpr hphase), if_neg (not_not.mpr hrole), if_pos (by simp [hbadge])]

/-! ## Every raised error is a `ValueError` -/

theorem require_game_error_kind {stored : Option GameState} {e : Err}
    (h : require_game stored = .error e) : e.kind = .valueError := by
  cases stored with
  | none =>
    simp only [require_game, Except.error.injEq] at h
    exact h ▸ rfl
  | some s => simp [require_game] at h

theorem require_player_error_kind {state : GameState} {pid : String} {e : Err}
    (h : require_player state pid = .error e) : e.kind = .valueError := by
  unfold require_player at h
  split at h
  · exact Except.noConfusion h
  · injection h with h
    exact h ▸ rfl

theorem set_murder_solution_error_kind {stored : Option GameState}
    {pid clue means : String} {now : Nat} {e : Err}
    (h : set_murder_solution stored pid clue means now = .error e) : e.kind = .valueError := by
  cases stored with
  | none =>
    simp only [set_murder_solution, require_game, except_bind_err, Except.error.injEq] at h
    exact h ▸ rfl
  | some state =>
    simp only [set_murder_solution, require_game, except_bind_ok] at h
    cases hidx : state.players.findIdx? (fun p => p.player_id = pid) with
    | none =>
      simp only [require_player, hidx, except_bind_err, Except.error.injEq] at h
      exact h ▸ rfl
    | some i =>
      simp only [require_player, hidx, except_bind_ok] at h
      cases hget : state.players.get? i with
      | none =>
        simp only [hget, Except.error.injEq] at h
        exact h ▸ rfl
      | some player =>
        simp only [hget] at h
        split_ifs at h
        all_goals (injection h with h; exact h ▸ rfl)

theorem set_fs_scene_selection_error_kind {stored : Option GameState}
    {pid loc cause : String} {assets : List TileOption} {now : Nat} {e : Err}
    (h : set_fs_scene_selection stored pid loc cause assets now = .error e) :
    e.kind = .valueError := by
  cases stored with
  | none =>
    simp only [set_fs_scene_selection, require_game, except_bind_err, Except.error.injEq] at h
    exact h ▸ rfl
  | some state =>
    simp only [set_fs_scene_selection, require_game, except_bind_ok] at h
    cases hidx : state.players.findIdx? (fun p => p.player_id = pid) with
    | none =>
      simp only [require_player, hidx, except_bind_err, Except.error.injEq] at h
      exact h ▸ rfl
    | some i =>
      simp only [require_player, hidx, except_bind_ok] at h
      cases hget : state.players.get? i with
      | none =>
        simp only [hget, Except.error.injEq] at h
        exact h ▸ rfl
      | some player =>
        simp only [hget] at h
        split_ifs at h
        all_goals (injection h with h; exact h ▸ rfl)

theorem add_discussion_comment_error_kind {stored : Option GameState}
    {pid comments : String} {now : Nat} {e : Err}
    (h : add_discussion_comment stored pid comments now = .error e) : e.kind = .valueError := by
  cases stored with
  | none =>
    simp only [add_discussion_comment, require_game, except_bind_err, Except.error.injEq] at h
    exact h ▸ rfl
  | some state =>
    simp only [add_discussion_comment, require_game, except_bind_ok] at h
    cases hidx : state.players.findIdx? (fun p => p.player_id = pid) with
    | none =>
      simp only [require_player, hidx, except_bind_err, Except.error.injEq] at h
      exact h ▸ rfl
    | some i =>
      simp only [require_player, hidx, except_bind_ok] at h
      split_ifs at h
      all_goals (injection h with h; exact h ▸ rfl)

theorem submit_solution_guess_error_kind {stored : Option GameState}
    {pid murderer_id clue means : String} {now : Nat} {e : Err}
    (h : submit_solution_guess stored pid murderer_id clue means now = .error e) :
    e.kind = .valueError := by
  cases stored with
  | none =>
    simp only [submit_solution_guess, require_game, except_bind_err, Except.error.injEq] at h
    exact h ▸ rfl
  | some state =>
    simp only [submit_solution_guess, require_game, except_bind_ok] at h
    cases hidx : state.players.findIdx? (fun p => p.player_id = pid) with
    | none =>
      simp only [require_player, hidx, except_bind_err, Except.error.injEq] at h
      exact h ▸ rfl
    | some i =>
      simp only [require_player, hidx, except_bind_ok] at h
      cases hget : state.players.get? i with
      | none =>
        simp only [hget, Except.error.injEq] at h
        exact h ▸ rfl
      | some player =>
        simp only [hget] at h
        split_ifs at h
        all_goals
          cases hsol : state.solution
        all_goals try simp only [hsol] at h
        all_goals first
          | (injection h with h; exact h ▸ rfl)
          | (split at h
             all_goals first
               | exact Except.noConfusion h
               | (injection h with h; exact h ▸ rfl))

theorem dispatch_action_async_error_kind {stored : Option GameState} {pid : String}
    {payload : ActionPayload} {assets : List TileOption} {now : Nat} {e : Err}
    (h : dispatch_action_async stored pid payload assets now = .error e) :
    e.kind = .valueError := by
  cases stored with
  | none =>
    cases payload <;>
      (simp only [dispatch_action_async, require_game, except_bind_err,
        Except.error.injEq] at h; exact h ▸ rfl)
  | some state =>
    cases payload with
    | murder clue means =>
      simp only [dispatch_action_async, require_game, except_bind_ok] at h
      split_ifs at h with h1
      · injection h with h; exact h ▸ rfl
      · cases hop : set_murder_solution (some state) pid clue means now with
        | error e' =>
          simp only [hop, except_bind_err, Except.error.injEq] at h
          exact h ▸ set_murder_solution_error_kind hop
        | ok s' =>
          simp only [hop, except_bind_ok] at h
          exact Except.noConfusion h
    | fs_scene loc cause =>
      simp only [dispatch_action_async, require_game, except_bind_ok] at h
      split_ifs at h with h1
      · injection h with h; exact h ▸ rfl
      · cases hop : set_fs_scene_selection (some state) pid loc cause assets now with
        | error e' =>
          simp only [hop, except_bind_err, Except.error.injEq] at h
          exact h ▸ set_fs_scene_selection_error_kind hop
        | ok s' =>
          simp only [hop, except_bind_ok] at h
          exact Except.noConfusion h
    | discuss comments =>
      simp only [dispatch_action_async, require_game, except_bind_ok] at h
      split_ifs at h with h1
      · injection h with h; exact h ▸ rfl
      · cases hop : add_discussion_comment (some state) pid comments now with
        | error e' =>
          simp only [hop, except_bind_err, Except.error.injEq] at h
          exact h ▸ add_discussion_comment_error_kind hop
        | ok s' =>
          simp only [hop, except_bind_ok] at h
          exact Except.noConfusion h
    | solve murderer clue means =>
      simp only [dispatch_action_async, require_game, except_bind_ok] at h
      split_ifs at h with h1
      · injection h with h; exact h ▸ rfl
      · cases hop : submit_solution_guess (some state) pid murderer clue means now with
        | error e' =>
          simp only [hop, except_bind_err, Except.error.injEq] at h
          exact h ▸ submit_solution_guess_error_kind hop
        | ok s' =>
          simp only [hop, except_bind_ok] at h
          exact Except.noConfusion h

/-! ## Dispatcher characterisations -/

theorem add_discussion_comment_eq_ok_succ {state : GameState} {pid comments : String}
    {now i : Nat}
    (hidx : state.players.findIdx? (fun p => p.player_id = pid) = some i)
    (hphase : state.phase ≠ .completed) :
    add_discussion_comment (some state) pid comments now
      = .ok (discussSuccessor state pid comments now) :=
  add_discussion_comment_eq_ok hidx hphase

theorem dispatch_discuss_eq_ok {state : GameState} {pid comments : String}
    {assets : List TileOption} {now : Nat} {i : Nat}
    (hidx : state.players.findIdx? (fun p => p.player_id = pid) = some i)
    (hphase : state.phase ≠ .completed) :
    dispatch_action_async (some state) pid (.discuss comments) assets now
      = .ok { state := discussSuccessor state pid comments now
              entries := mailbox_entries_for_state_changed
                (discussSuccessor state pid comments now) now } := by
  simp only [dispatch_action_async, require_game, except_bind_ok]
  rw [if_neg hphase, add_discussion_comment_eq_ok_succ hidx hphase, except_bind_ok]

theorem dispatch_discuss_completed {state : GameState} {pid comments : String}
    {assets : List TileOption} {now : Nat}
    (hphase : state.phase = .completed) :
    dispatch_action_async (some state) pid (.discuss comments) assets now
      = .error ⟨.valueError, "Game is completed"⟩ := by
  simp only [dispatch_action_async, require_game, except_bind_ok]
  rw [if_pos hphase]

theorem validate_discuss_ok_iff (state : GameState) (pid : String)
    (hphase : state.phase = .discussion) :
    (validate_discuss_pipeline pid state = .ok ())
      ↔ current_turn_player_id state = .ok pid := by
  unfold validate_discuss_pipeline completedGameValidator discussionTurnValidator
    assert_is_players_turn
  rw [if_neg (by simp [hphase]), except_bind_ok, if_neg (by simp [hphase])]
  cases hct : current_turn_player_id state with
  | error e =>
    rw [except_bind_err]
    constructor
    · intro h; exact absurd h (by simp)
    · intro h; exact absurd h (by simp)
  | ok expected =>
    rw [except_bind_ok]
    by_cases hpe : pid = expected
    · subst hpe
      simp
    · rw [if_pos hpe]
      constructor
      · intro h; exact absurd h (by simp)
      · intro h
        injection h with h
        exact absurd h.symm hpe

/-! ## Claim theorems -/

/-- C1 (code bug evidence): the claim says a successful FS scene pick lands
in `setup_awaiting_fs_scene_bullets_pick`, and the repository's own FSM
(`fsm.py`) and tests (`test_fs_scene_bullets_selection.py`) agree — but
`GamePhase` in `app/api/models.py` has no such member and
`set_fs_scene_selection` in `app/game_store.py` sets the phase straight to
`discussion`.  Concretely: a valid FS scene pick on a game awaiting the scene
pick yields phase `discussion`. -/
theorem c1_fs_scene_pick_lands_in_discussion :
    gScene.phase = GamePhase.setup_awaiting_fs_scene_pick
    ∧ (set_fs_scene_selection (some gScene) "p1" "location-1__kitchen"
          "cause-of-death__poisoning" assets1 5).toOption.map GameState.phase
        = some GamePhase.discussion := by decide

/-- C4 (counterexample): in a discussion-phase game whose derived current
turn belongs to `"p1"`, the dispatcher accepts two consecutive `discuss`
actions from the same player `"p1"` — the second is not rejected, refuting the
claim that the dispatcher rejects out-of-turn commenters. -/
theorem c4_counterexample_same_player_twice_accepted :
    current_turn_player_id gDiscuss = .ok "p1"
    ∧ (((dispatch_action_async (some gDiscuss) "p1" (.discuss "a") assets1 5).toOption.bind
          (fun r1 => (dispatch_action_async (some r1.state) "p1"
            (.discuss "b") assets1 6).toOption)).map
        (fun r2 => r2.state.discussion.map (fun c => (c.seq, c.player_id))))
      = some [(1, "p1"), (2, "p1")] := by decide

/-- C4 (amended): during discussion the current-turn player is the one at
index `len(discussion) % N` of the seat-sorted player list, and the `discuss`
validator pipeline (`DEFAULT_ACTION_PIPELINES` in
`app/turn_processing/validators.py`) accepts a commenter exactly when it is
that player's turn; but `dispatch_action_async` never invokes that pipeline:
it accepts a `discuss` from **any** present player in any non-completed phase
and appends the comment. -/
theorem c4_amended_turn_check_only_in_pipeline :
    (∀ (state : GameState) (pid : String), state.phase = .discussion →
      ((validate_discuss_pipeline pid state = .ok ())
        ↔ current_turn_player_id state = .ok pid))
    ∧ (∀ (state : GameState) (pid comments : String) (assets : List TileOption) (now i : Nat),
        state.players.findIdx? (fun p => p.player_id = pid) = some i →
        state.phase ≠ .completed →
        dispatch_action_async (some state) pid (.discuss comments) assets now
          = .ok { state := discussSuccessor state pid comments now
                  entries := mailbox_entries_for_state_changed
                    (discussSuccessor state pid comments now) now }) :=
  ⟨fun state pid h => validate_discuss_ok_iff state pid h,
   fun _ _ _ _ _ _ hidx hphase => dispatch_discuss_eq_ok hidx hphase⟩

/-- C4 (witness): the pipeline accepts the on-turn player `"p1"`, and the
dispatcher accepts the out-of-turn player `"p3"`. -/
theorem c4_amended_witness :
    validate_discuss_pipeline "p1" gDiscuss = .ok ()
    ∧ dispatch_action_async (some gDiscuss) "p3" (.discuss "hi") assets1 5
      = .ok { state := discussSuccessor gDiscuss "p3" "hi" 5
              entries := mailbox_entries_for_state_changed
                (discussSuccessor gDiscuss "p3" "hi" 5) 5 } :=
  ⟨(c4_amended_turn_check_only_in_pipeline.1 gDiscuss "p1" (by decide)).mpr (by decide),
   c4_amended_turn_check_only_in_pipeline.2 gDiscuss "p3" "hi" assets1 5 2
     (by decide) (by decide)⟩

/-- C9 (counterexample): the not-found kind is not distinguishable
from the validation kind: `require_game` on a missing game raises the same
`ValueError` class that a phase-validation failure raises, and the discuss
route surfaces a missing game as 422, not as a 404-equivalent. -/
theorem c9_counterexample_not_found_same_kind :
    require_game none = .error { kind := .valueError, msg := "Game not found" }
    ∧ set_murder_solution (some gDiscuss) "p2" "blood" "axe" 5
      = .error { kind := .valueError, msg := "Game is not awaiting murder selection" }
    ∧ discuss_route none "p3" "hello" assets1 5 = .err 422 "Game not found" := by decide

/-- C9 (amended): not-found and domain/validation failures share the single
`ValueError` kind — every error produced by `dispatch_action_async` is a
`ValueError`, and the action routes map them all to 422 (a missing game on the
discuss route gives 422 "Game not found"); only the get-game route surfaces
404, by a direct absence check rather than by error kind. -/
theorem c9_amended_single_error_kind :
    (∀ (stored : Option GameState) (pid : String) (payload : ActionPayload)
        (assets : List TileOption) (now : Nat) (e : Err),
      dispatch_action_async stored pid payload assets now = .error e →
      e.kind = .valueError)
    ∧ discuss_route none "p3" "hello" assets1 5 = .err 422 "Game not found"
    ∧ get_game_route none = .err 404 "Game not found" :=
  ⟨fun _ _ _ _ _ _ h => dispatch_action_async_error_kind h, by decide, by decide⟩

/-- C9 (witness): the universally quantified conjunct applied at a concrete
erroring dispatch (discuss on a completed game). -/
theorem c9_amended_witness :
    Err.kind { kind := .valueError, msg := "Game is completed" } = ExcKind.valueError :=
  c9_amended_single_error_kind.1 (some gCompleted) "p3" (.discuss "x") assets1 5
    { kind := .valueError, msg := "Game is completed" } (by decide)

/-- C10: for any stored game and any player present in it, a `discuss`
through `dispatch_action_async` in any non-completed phase (including the
setup phases, before any solution or scene is set) succeeds and appends the
comment with the next sequence number — no turn-order check is applied — and
on a completed game it fails with the `ValueError` "Game is completed" and no
state is persisted. -/
theorem c10_discuss_any_player_any_noncompleted_phase :
    ∀ (state : GameState) (pid comments : String) (assets : List TileOption) (now i : Nat),
      state.players.findIdx? (fun p => p.player_id = pid) = some i →
      ((state.phase ≠ .completed →
          dispatch_action_async (some state) pid (.discuss comments) assets now
            = .ok { state := discussSuccessor state pid comments now
                    entries := mailbox_entries_for_state_changed
                      (discussSuccessor state pid comments now) now })
        ∧ (state.phase = .completed →
            dispatch_action_async (some state) pid (.discuss comments) assets now
              = .error ⟨.valueError, "Game is completed"⟩)) :=
  fun _ _ _ _ _ _ hidx =>
    ⟨fun hphase => dispatch_discuss_eq_ok hidx hphase,
     fun hphase => dispatch_discuss_completed hphase⟩

/-- C10 (witness): a discuss during the setup phase `setup_awaiting_murder_pick`
succeeds and appends, and a discuss on a completed game fails. -/
theorem c10_witness :
    dispatch_action_async (some gMurder) "p3" (.discuss "hello") assets1 5
      = .ok { state := discussSuccessor gMurder "p3" "hello" 5
              entries := mailbox_entries_for_state_changed
                (discussSuccessor gMurder "p3" "hello" 5) 5 }
    ∧ dispatch_action_async (some gCompleted) "p3" (.discuss "hello") assets1 5
      = .error ⟨.valueError, "Game is completed"⟩ :=
  ⟨(c10_discuss_any_player_any_noncompleted_phase gMurder "p3" "hello" assets1 5 2
      (by decide)).1 (by decide),
   (c10_discuss_any_player_any_noncompleted_phase gCompleted "p3" "hello" assets1 5 2
      (by decide)).2 (by decide)⟩

/-- C5 (code bug evidence): after a successful murder pick every player's
inbox does get a `state_changed` entry, but the forensic scientist's
`prompt_fs_scene_pick` entry is built from the **global** location/cause
enumerations, not from the game's pre-dealt tile categories: with two Location
tiles in the dataset and `fs_location_tile = "Location 1"`, the prompt's
`location_ids` contains `location-2__garage`, whose tile is `"Location 2"` —
an id `set_fs_scene_selection` itself would reject. -/
theorem c5_fs_prompt_carries_undealt_tile_ids :
    gMurder.fs_location_tile = some "Location 1"
    ∧ (assets1.find? (fun o => o.id = "location-2__garage")).map (fun o => o.tile)
      = some "Location 2"
    ∧ ((dispatch_action_async (some gMurder) "p2" (.murder "blood" "axe") assets1 5).toOption.map
        (fun r => (r.entries.filter
            (fun e => e.fields.contains ("type", "state_changed"))).map (fun e => e.key)))
      = some [mailboxKey "g1" "p1", mailboxKey "g1" "p2",
          mailboxKey "g1" "p3", mailboxKey "g1" "p4"]
    ∧ ((dispatch_action_async (some gMurder) "p2" (.murder "blood" "axe") assets1 5).toOption.map
        (fun r => (r.entries.filter
            (fun e => e.fields.contains ("type", "prompt_fs_scene_pick"))).map
          (fun e => (e.key, e.fields.lookup "location_ids"))))
      = some [(mailboxKey "g1" "p1",
          some "location-1__garden,location-1__kitchen,location-2__garage")] := by decide

/-- C3: `set_murder_solution` succeeds exactly when the game awaits the
murder pick, the actor is the murderer, and both ids come from the actor's own
dealt hand; every failure is a `ValueError` and leaves the stored state (and
hence its null `solution`) untouched. -/
theorem c3_set_murder_solution_iff :
    ∀ (state : GameState) (pid clue means : String) (now i : Nat) (player : PlayerState),
      state.players.findIdx? (fun p => p.player_id = pid) = some i →
      state.players.get? i = some player →
      (((set_murder_solution (some state) pid clue means now).isOk = true)
        ↔ (state.phase = .setup_awaiting_murder_pick ∧ player.role = "murderer"
            ∧ clue ∈ player.hand.clue_ids ∧ means ∈ player.hand.means_ids))
      ∧ (∀ e, set_murder_solution (some state) pid clue means now = .error e →
          e.kind = .valueError
          ∧ applyResult (some state) (set_murder_solution (some state) pid clue means now)
            = some state) := by
  intro state pid clue means now i player hidx hget
  constructor
  · constructor
    · intro hok
      obtain ⟨s', hs'⟩ := (except_isOk_iff _).mp hok
      obtain ⟨st, i', pl, hstored, hidx', hget', hphase, hrole, hclue, hmeans, _⟩ :=
        set_murder_solution_ok_shape hs'
      injection hstored with hst
      subst hst
      rw [hidx] at hidx'
      injection hidx' with hi
      subst hi
      rw [hget] at hget'
      injection hget' with hp
      subst hp
      exact ⟨hphase, hrole, hclue, hmeans⟩
    · rintro ⟨hphase, hrole, hclue, hmeans⟩
      rw [set_murder_solution_eq_ok hidx hget hphase hrole hclue hmeans]
      rfl
  · intro e he
    exact ⟨set_murder_solution_error_kind he, by rw [he]; rfl⟩

/-- C3 (witness): picking from the murderer's own hand succeeds; a clue id
outside the hand fails with a `ValueError` and the stored game — whose
`solution` is still `none` — is unchanged. -/
theorem c3_witness :
    (set_murder_solution (some gMurder) "p2" "blood" "axe" 3).isOk = true
    ∧ applyResult (some gMurder) (set_murder_solution (some gMurder) "p2" "bad-clue" "axe" 3)
      = some gMurder
    ∧ gMurder.solution = none :=
  ⟨((c3_set_murder_solution_iff gMurder "p2" "blood" "axe" 3 1
      { player_id := "p2", seat := 1, is_ai := false, role := "murderer", hand := handM }
      (by decide) (by decide)).1).mpr (by decide),
   ((c3_set_murder_solution_iff gMurder "p2" "bad-clue" "axe" 3 1
      { player_id := "p2", seat := 1, is_ai := false, role := "murderer", hand := handM }
      (by decide) (by decide)).2
      ⟨.valueError, "clue must be chosen from the murderer's dealt clue cards"⟩
      (by decide)).2,
   by decide⟩

/-- C6: `set_fs_scene_selection` succeeds exactly when the game awaits the
scene pick, the actor is the forensic scientist, and both submitted ids are in
the allowed sets; the allowed set is exactly the option ids under the dealt
tile category when the tile field is set, and falls back to the global
enumeration only when the field is absent; any failure is a `ValueError`. -/
theorem c6_fs_scene_selection_tile_filtering :
    ∀ (state : GameState) (pid loc cause : String) (assets : List TileOption) (now i : Nat)
      (player : PlayerState),
      state.players.findIdx? (fun p => p.player_id = pid) = some i →
      state.players.get? i = some player →
      (((set_fs_scene_selection (some state) pid loc cause assets now).isOk = true)
        ↔ (state.phase = .setup_awaiting_fs_scene_pick ∧ player.role = "forensic_scientist"
            ∧ loc ∈ allowedLocationIds state assets ∧ cause ∈ allowedCauseIds state assets))
      ∧ (∀ t, state.fs_location_tile = some t → t ≠ "" →
          allowedLocationIds state assets
            = (assets.filter (fun o => o.tile = t)).map (fun o => o.id))
      ∧ (state.fs_location_tile = none →
          allowedLocationIds state assets = locationIdsFromAssets assets)
      ∧ (∀ t, state.fs_cause_tile = some t → t ≠ "" →
          allowedCauseIds state assets
            = (assets.filter (fun o => o.tile = t)).map (fun o => o.id))
      ∧ (state.fs_cause_tile = none →
          allowedCauseIds state assets = causeIdsFromAssets assets)
      ∧ (∀ e, set_fs_scene_selection (some state) pid loc cause assets now = .error e →
          e.kind = .valueError) := by
  intro state pid loc cause assets now i player hidx hget
  refine ⟨⟨?_, ?_⟩, ?_, ?_, ?_, ?_, ?_⟩
  · intro hok
    obtain ⟨s', hs'⟩ := (except_isOk_iff _).mp hok
    obtain ⟨st, i', pl, hstored, hidx', hget', hphase, hrole, hloc, hcause, _⟩ :=
      set_fs_scene_selection_ok_shape hs'
    injection hstored with hst
    subst hst
    rw [hidx] at hidx'
    injection hidx' with hi
    subst hi
    rw [hget] at hget'
    injection hget' with hp
    subst hp
    exact ⟨hphase, hrole, hloc, hcause⟩
  · rintro ⟨hphase, hrole, hloc, hcause⟩
    rw [set_fs_scene_selection_eq_ok hidx hget hphase hrole hloc hcause]
    rfl
  · intro t ht hne
    rw [allowedLocationIds, ht, if_pos (by simp [optStrTruthy, hne])]
    refine congrArg _ (List.filter_congr ?_)
    intro o _
    simp
  · intro ht
    rw [allowedLocationIds, ht, if_neg (by simp [optStrTruthy])]
  · intro t ht hne
    rw [allowedCauseIds, ht, if_pos (by simp [optStrTruthy, hne])]
    refine congrArg _ (List.filter_congr ?_)
    intro o _
    simp
  · intro ht
    rw [allowedCauseIds, ht, if_neg (by simp [optStrTruthy])]
  · intro e he
    exact set_fs_scene_selection_error_kind he

/-- C6 (witness): with dealt tiles `"Location 1"` / `"Cause of Death"`,
the FS pick of in-category ids succeeds, the allowed location set is exactly
the `"Location 1"` ids, and the out-of-category id `location-2__garage` fails
with a `ValueError`. -/
theorem c6_witness :
    (set_fs_scene_selection (some gScene) "p1" "location-1__kitchen"
        "cause-of-death__poisoning" assets1 5).isOk = true
    ∧ allowedLocationIds gScene assets1
      = (assets1.filter (fun o => o.tile = "Location 1")).map (fun o => o.id)
    ∧ Err.kind ⟨.valueError, "location must be a valid option id"⟩ = .valueError :=
  ⟨((c6_fs_scene_selection_tile_filtering gScene "p1" "location-1__kitchen"
      "cause-of-death__poisoning" assets1 5 0 { player_id := "p1", seat := 0, is_ai := false, role := "forensic_scientist" }
      (by decide) (by decide)).1).mpr (by decide),
   (c6_fs_scene_selection_tile_filtering gScene "p1" "location-1__kitchen"
      "cause-of-death__poisoning" assets1 5 0 { player_id := "p1", seat := 0, is_ai := false, role := "forensic_scientist" }
      (by decide) (by decide)).2.1 "Location 1" (by decide) (by decide),
   (c6_fs_scene_selection_tile_filtering gScene "p1" "location-2__garage"
      "cause-of-death__poisoning" assets1 5 0 { player_id := "p1", seat := 0, is_ai := false, role := "forensic_scientist" }
      (by decide) (by decide)).2.2.2.2.2 ⟨.valueError, "location must be a valid option id"⟩
      (by decide)⟩

/-! ## Dispatch success inversion: each branch reduces to its mutation -/

theorem dispatch_murder_ok_inv {s : GameState} {pid c m : String}
    {assets : List TileOption} {now : Nat} {res : DispatchResult}
    (h : dispatch_action_async (some s) pid (.murder c m) assets now = .ok res) :
    set_murder_solution (some s) pid c m now = .ok res.state := by
  simp only [dispatch_action_async, require_game, except_bind_ok] at h
  split_ifs at h
  cases hop : set_murder_solution (some s) pid c m now with
  | error e =>
    rw [hop, except_bind_err] at h
    exact Except.noConfusion h
  | ok s' =>
    rw [hop, except_bind_ok] at h
    injection h with h
    rw [← h]

theorem dispatch_fs_scene_ok_inv {s : GameState} {pid loc cause : String}
    {assets : List TileOption} {now : Nat} {res : DispatchResult}
    (h : dispatch_action_async (some s) pid (.fs_scene loc cause) assets now = .ok res) :
    set_fs_scene_selection (some s) pid loc cause assets now = .ok res.state := by
  simp only [dispatch_action_async, require_game, except_bind_ok] at h
  split_ifs at h
  cases hop : set_fs_scene_selection (some s) pid loc cause assets now with
  | error e =>
    rw [hop, except_bind_err] at h
    exact Except.noConfusion h
  | ok s' =>
    rw [hop, except_bind_ok] at h
    injection h with h
    rw [← h]

theorem dispatch_discuss_ok_inv {s : GameState} {pid comments : String}
    {assets : List TileOption} {now : Nat} {res : DispatchResult}
    (h : dispatch_action_async (some s) pid (.discuss comments) assets now = .ok res) :
    add_discussion_comment (some s) pid comments now = .ok res.state := by
  simp only [dispatch_action_async, require_game, except_bind_ok] at h
  split_ifs at h
  cases hop : add_discussion_comment (some s) pid comments now with
  | error e =>
    rw [hop, except_bind_err] at h
    exact Except.noConfusion h
  | ok s' =>
    rw [hop, except_bind_ok] at h
    injection h with h
    rw [← h]

theorem dispatch_solve_ok_inv {s : GameState} {pid murderer clue means : String}
    {assets : List TileOption} {now : Nat} {res : DispatchResult}
    (h : dispatch_action_async (some s) pid (.solve murderer clue means) assets now = .ok res) :
    submit_solution_guess (some s) pid murderer clue means now = .ok res.state := by
  simp only [dispatch_action_async, require_game, except_bind_ok] at h
  split_ifs at h
  cases hop : submit_solution_guess (some s) pid murderer clue means now with
  | error e =>
    rw [hop, except_bind_err] at h
    exact Except.noConfusion h
  | ok s' =>
    rw [hop, except_bind_ok] at h
    injection h with h
    rw [← h]

/-! ## Per-player update functions preserve identity fields -/

theorem secretsSolutionUpdate_fields (sol : Solution) (p : PlayerState) :
    (secretsSolutionUpdate sol p).player_id = p.player_id
    ∧ (secretsSolutionUpdate sol p).role = p.role
    ∧ (secretsSolutionUpdate sol p).seat = p.seat
    ∧ (secretsSolutionUpdate sol p).has_badge = p.has_badge := by
  unfold secretsSolutionUpdate
  split <;> exact ⟨rfl, rfl, rfl, rfl⟩

theorem secretsWitnessUpdate_fields (murderer accomplice : Option PlayerState)
    (p : PlayerState) :
    (secretsWitnessUpdate murderer accomplice p).player_id = p.player_id
    ∧ (secretsWitnessUpdate murderer accomplice p).role = p.role
    ∧ (secretsWitnessUpdate murderer accomplice p).seat = p.seat
    ∧ (secretsWitnessUpdate murderer accomplice p).has_badge = p.has_badge := by
  unfold secretsWitnessUpdate
  split <;> exact ⟨rfl, rfl, rfl, rfl⟩

/-! ## One dispatcher step -/

/-- Any dispatcher step preserves each position's player identity and never
restores a lost badge. -/
theorem stepDispatch_player_fields {s s' : GameState} (h : StepDispatch s s') :
    ∀ j p p', s.players.get? j = some p → s'.players.get? j = some p' →
      p'.player_id = p.player_id ∧ p'.role = p.role
      ∧ (p.has_badge = false → p'.has_badge = false) := by
  obtain ⟨pid, payload, assets, now, res, hok, hst⟩ := h
  subst hst
  intro j p p' hp hp'
  cases payload with
  | murder c m =>
    obtain ⟨st, i, pl, hstored, _, _, _, _, _, _, hshape⟩ :=
      set_murder_solution_ok_shape (dispatch_murder_ok_inv hok)
    injection hstored with hst
    subst hst
    rw [hshape] at hp'
    replace hp' : ((s.players.map (secretsSolutionUpdate
        { means_id := m, clue_id := c })).map
        (secretsWitnessUpdate (s.players.find? (fun q => q.role = "murderer"))
          (s.players.find? (fun q => q.role = "accomplice")))).get? j = some p' := hp'
    rw [List.get?_map, List.get?_map, hp] at hp'
    injection hp' with hp'
    subst hp'
    obtain ⟨h1, h2, _, h4⟩ := secretsWitnessUpdate_fields
      (s.players.find? (fun q => q.role = "murderer"))
      (s.players.find? (fun q => q.role = "accomplice"))
      (secretsSolutionUpdate { means_id := m, clue_id := c } p)
    obtain ⟨g1, g2, _, g4⟩ := secretsSolutionUpdate_fields
      { means_id := m, clue_id := c } p
    exact ⟨h1.trans g1, h2.trans g2, fun hb => (h4.trans g4).trans hb⟩
  | fs_scene loc cause =>
    obtain ⟨st, i, pl, hstored, _, _, _, _, _, _, hshape⟩ :=
      set_fs_scene_selection_ok_shape (dispatch_fs_scene_ok_inv hok)
    injection hstored with hst
    subst hst
    rw [hshape] at hp'
    replace hp' : s.players.get? j = some p' := hp'
    rw [hp] at hp'
    injection hp' with hp'
    subst hp'
    exact ⟨rfl, rfl, fun hb => hb⟩
  | discuss comments =>
    obtain ⟨st, i, hstored, _, _, hshape⟩ :=
      add_discussion_comment_ok_shape (dispatch_discuss_ok_inv hok)
    injection hstored with hst
    subst hst
    rw [hshape] at hp'
    replace hp' : s.players.get? j = some p' := hp'
    rw [hp] at hp'
    injection hp' with hp'
    subst hp'
    exact ⟨rfl, rfl, fun hb => hb⟩
  | solve murderer clue means =>
    obtain ⟨st, i, pl, sol, hstored, hidx, hget, _, _, _, _, hcases⟩ :=
      submit_solution_guess_ok_shape (dispatch_solve_ok_inv hok)
    injection hstored with hst
    subst hst
    cases hcases with
    | inl hc =>
      rw [hc.2.2.2] at hp'
      replace hp' : s.players.get? j = some p' := hp'
      rw [hp] at hp'
      injection hp' with hp'
      subst hp'
      exact ⟨rfl, rfl, fun hb => hb⟩
    | inr hc =>
      rw [hc.2] at hp'
      replace hp' : (s.players.set i { pl with has_badge := false }).get? j = some p' := hp'
      rw [List.get?_set] at hp'
      by_cases hij : i = j
      · rw [if_pos hij] at hp'
        rw [hp] at hp'
        injection hp' with hp'
        subst hp'
        subst hij
        rw [hp] at hget
        injection hget with hget
        subst hget
        exact ⟨rfl, rfl, fun _ => rfl⟩
      · rw [if_neg hij] at hp'
        rw [hp] at hp'
        injection hp' with hp'
        subst hp'
        exact ⟨rfl, rfl, fun hb => hb⟩

/-- C2: during discussion, a badge-holding investigator's solve with all
three fields equal to the true murderer and stored solution completes the game
and records the winner; any mismatch leaves the phase unchanged and clears the
actor's badge; a badge-less investigator's solve fails with a `ValueError` and
persists nothing; and no dispatcher step ever restores a cleared badge. -/
theorem c2_submit_solution_guess :
    (∀ (state : GameState) (pid murderer_id clue means : String) (now i : Nat)
       (player m : PlayerState) (sol : Solution),
      state.players.findIdx? (fun p => p.player_id = pid) = some i →
      state.players.get? i = some player →
      state.phase = .discussion →
      player.role = "investigator" →
      state.players.find? (fun p => p.role = "murderer") = some m →
      state.solution = some sol →
      ((player.has_badge = true → murderer_id = m.player_id → clue = sol.clue_id →
          means = sol.means_id →
          submit_solution_guess (some state) pid murderer_id clue means now
            = .ok (save_game now
                { state with
                  phase := .completed
                  winning_investigator_id := some player.player_id }))
        ∧ (player.has_badge = true →
            ¬ (murderer_id = m.player_id ∧ clue = sol.clue_id ∧ means = sol.means_id) →
            submit_solution_guess (some state) pid murderer_id clue means now
              = .ok (save_game now
                  { state with
                    players := state.players.set i { player with has_badge := false } })
            ∧ (save_game now
                { state with
                  players := state.players.set i { player with has_badge := false } }).phase
              = state.phase)
        ∧ (player.has_badge = false →
            submit_solution_guess (some state) pid murderer_id clue means now
              = .error ⟨.valueError, "Investigator has no badge and cannot solve"⟩
            ∧ applyResult (some state)
                (submit_solution_guess (some state) pid murderer_id clue means now)
              = some state)))
    ∧ (∀ s s', StepDispatch s s' → ∀ j p p',
        s.players.get? j = some p → s'.players.get? j = some p' →
        p'.player_id = p.player_id ∧ (p.has_badge = false → p'.has_badge = false)) := by
  constructor
  · intro state pid murderer_id clue means now i player m sol hidx hget hphase hrole hfind hsol
    refine ⟨?_, ?_, ?_⟩
    · intro hbadge hmid hc hme
      exact submit_solution_guess_eq_ok_correct hidx hget hphase hrole hbadge hsol
        (by rw [hfind, Option.map_some', hmid]) hc hme
    · intro hbadge hwrong
      refine ⟨?_, rfl⟩
      refine submit_solution_guess_eq_ok_wrong hidx hget hphase hrole hbadge hsol ?_
      rintro ⟨h1, h2, h3⟩
      rw [hfind, Option.map_some'] at h1
      injection h1 with h1
      exact hwrong ⟨h1.symm, h2, h3⟩
    · intro hbadge
      refine ⟨submit_solution_guess_no_badge hidx hget hphase hrole hbadge, ?_⟩
      rw [submit_solution_guess_no_badge hidx hget hphase hrole hbadge]
      rfl
  · intro s s' hstep j p p' hp hp'
    obtain ⟨h1, _, h3⟩ := stepDispatch_player_fields hstep j p p' hp hp'
    exact ⟨h1, h3⟩

/-- C2 (witness): in the concrete discussion game, the correct triple from
`p3` completes the game with `p3` as winner; a wrong clue instead clears
`p3`'s badge with the phase still `discussion`; once badge-less, `p3`'s solve
errors and persists nothing; and a subsequent discuss step keeps the badge
cleared. -/
theorem c2_witness :
    submit_solution_guess (some gDiscuss) "p3" "p2" "blood" "axe" 9
      = .ok (save_game 9
          { gDiscuss with
            phase := .completed
            winning_investigator_id := some "p3" })
    ∧ submit_solution_guess (some gDiscuss) "p3" "p2" "note" "axe" 9
      = .ok (save_game 9
          { gDiscuss with
            players := gDiscuss.players.set 2
              { player_id := "p3", seat := 2, is_ai := true, role := "investigator",
                has_badge := false } })
    ∧ submit_solution_guess (some gBadgeLost) "p3" "p2" "blood" "axe" 9
      = .error ⟨.valueError, "Investigator has no badge and cannot solve"⟩
    ∧ applyResult (some gBadgeLost)
        (submit_solution_guess (some gBadgeLost) "p3" "p2" "blood" "axe" 9)
      = some gBadgeLost := by
  have base := c2_submit_solution_guess.1 gDiscuss "p3" "p2" "blood" "axe" 9 2
    { player_id := "p3", seat := 2, is_ai := true, role := "investigator" }
    { player_id := "p2", seat := 1, is_ai := false, role := "murderer", hand := handM }
    { means_id := "axe", clue_id := "blood" }
    (by decide) (by decide) (by decide) (by decide) (by decide) (by decide)
  have wrong := c2_submit_solution_guess.1 gDiscuss "p3" "p2" "note" "axe" 9 2
    { player_id := "p3", seat := 2, is_ai := true, role := "investigator" }
    { player_id := "p2", seat := 1, is_ai := false, role := "murderer", hand := handM }
    { means_id := "axe", clue_id := "blood" }
    (by decide) (by decide) (by decide) (by decide) (by decide) (by decide)
  have lost := c2_submit_solution_guess.1 gBadgeLost "p3" "p2" "blood" "axe" 9 2
    { player_id := "p3", seat := 2, is_ai := true, role := "investigator",
      has_badge := false }
    { player_id := "p2", seat := 1, is_ai := false, role := "murderer", hand := handM }
    { means_id := "axe", clue_id := "blood" }
    (by decide) (by decide) (by decide) (by decide) (by decide) (by decide)
  refine ⟨base.1 (by decide) (by decide) (by decide) (by decide), ?_,
    (lost.2.2 (by decide)).1, (lost.2.2 (by decide)).2⟩
  exact (wrong.2.1 (by decide) (by decide)).1

theorem secretsSolutionUpdate_spec (sol : Solution) (p : PlayerState) :
    (p.role ∈ rolesKnowingSolution →
      (secretsSolutionUpdate sol p).knows_solution = true
      ∧ (secretsSolutionUpdate sol p).solution = some sol)
    ∧ (p.role ∉ rolesKnowingSolution →
      (secretsSolutionUpdate sol p).knows_solution = false
      ∧ (secretsSolutionUpdate sol p).solution = none)
    ∧ (secretsSolutionUpdate sol p).knows_identities = p.knows_identities
    ∧ (secretsSolutionUpdate sol p).known_murderer_id = p.known_murderer_id
    ∧ (secretsSolutionUpdate sol p).known_accomplice_id = p.known_accomplice_id := by
  unfold secretsSolutionUpdate
  by_cases h : p.role = "forensic_scientist" ∨ p.role = "murderer" ∨ p.role = "accomplice"
  · rw [if_pos (by simpa [or_assoc] using h)]
    exact ⟨fun _ => ⟨rfl, rfl⟩,
      fun hc => absurd (by simpa [rolesKnowingSolution] using h) hc,
      rfl, rfl, rfl⟩
  · rw [if_neg (by simpa [or_assoc] using h)]
    exact ⟨fun hc => absurd (by simpa [rolesKnowingSolution] using hc) h,
      fun _ => ⟨rfl, rfl⟩, rfl, rfl, rfl⟩

theorem secretsWitnessUpdate_keeps (murderer accomplice : Option PlayerState)
    (p : PlayerState) :
    (secretsWitnessUpdate murderer accomplice p).knows_solution = p.knows_solution
    ∧ (secretsWitnessUpdate murderer accomplice p).solution = p.solution := by
  unfold secretsWitnessUpdate
  split <;> exact ⟨rfl, rfl⟩

theorem secretsWitnessUpdate_spec (murderer accomplice : Option PlayerState)
    (p : PlayerState) :
    (p.role = "witness" →
      (secretsWitnessUpdate murderer accomplice p).knows_identities = true
      ∧ (secretsWitnessUpdate murderer accomplice p).known_murderer_id
        = murderer.map (fun m => m.player_id)
      ∧ (secretsWitnessUpdate murderer accomplice p).known_accomplice_id
        = accomplice.map (fun a => a.player_id))
    ∧ (p.role ≠ "witness" →
      (secretsWitnessUpdate murderer accomplice p).knows_identities = false) := by
  unfold secretsWitnessUpdate
  by_cases h : p.role = "witness"
  · rw [if_pos h]
    exact ⟨fun _ => ⟨rfl, rfl, rfl⟩, fun hc => absurd h hc⟩
  · rw [if_neg h]
    exact ⟨fun hc => absurd hc h, fun _ => rfl⟩

/-- Two player lists that agree positionwise on `role` and `player_id` have the
same role-keyed `find?` projected to player ids. -/
theorem find?_role_pid_congr (l l' : List PlayerState) (r : String)
    (hlen : l'.length = l.length)
    (hj : ∀ j p p', l.get? j = some p → l'.get? j = some p' →
        p'.role = p.role ∧ p'.player_id = p.player_id) :
    (l'.find? (fun q => q.role = r)).map (fun q => q.player_id)
      = (l.find? (fun q => q.role = r)).map (fun q => q.player_id) := by
  induction l generalizing l' with
  | nil =>
    have hnil : l' = [] := List.length_eq_zero.mp (by rw [hlen]; rfl)
    subst hnil
    rfl
  | cons a t ih =>
    cases l' with
    | nil => simp at hlen
    | cons a' t' =>
      have h0 := hj 0 a a' rfl rfl
      by_cases hr : a.role = r
      · rw [List.find?_cons_of_pos _ (by simpa using (h0.1.trans hr)),
          List.find?_cons_of_pos _ (by simpa using hr)]
        simp [h0.2]
      · rw [List.find?_cons_of_neg _ (by simpa using (fun hc => hr (h0.1.symm.trans hc))),
          List.find?_cons_of_neg _ (by simpa using hr)]
        exact ih t' (by simpa using hlen) (fun j p p' hp hp' => hj (j + 1) p p' hp hp')

/-- The doubly-mapped player list of `apply_solution_and_secrets` agrees
positionwise with the original on `role` and `player_id`. -/
theorem apply_players_positionwise (state : GameState) (sol : Solution) :
    ∀ j p p', state.players.get? j = some p →
      (apply_solution_and_secrets state sol).players.get? j = some p' →
      p'.role = p.role ∧ p'.player_id = p.player_id := by
  intro j p p' hp hp'
  replace hp' : ((state.players.map (secretsSolutionUpdate sol)).map
      (secretsWitnessUpdate (state.players.find? (fun q => q.role = "murderer"))
        (state.players.find? (fun q => q.role = "accomplice")))).get? j = some p' := hp'
  rw [List.get?_map, List.get?_map, hp] at hp'
  injection hp' with hp'
  subst hp'
  obtain ⟨h1, h2, _, _⟩ := secretsWitnessUpdate_fields
    (state.players.find? (fun q => q.role = "murderer"))
    (state.players.find? (fun q => q.role = "accomplice"))
    (secretsSolutionUpdate sol p)
  obtain ⟨g1, g2, _, _⟩ := secretsSolutionUpdate_fields sol p
  exact ⟨h2.trans g2, h1.trans g1⟩

/-- Source `apply_solution_and_secrets` establishes the secret-knowledge shape. -/
theorem secretsApplied_of_apply (state : GameState) (sol : Solution) :
    SecretsApplied (apply_solution_and_secrets state sol) := by
  constructor
  · rfl
  · intro p' hp'
    replace hp' : p' ∈ (state.players.map (secretsSolutionUpdate sol)).map
        (secretsWitnessUpdate (state.players.find? (fun q => q.role = "murderer"))
          (state.players.find? (fun q => q.role = "accomplice"))) := hp'
    obtain ⟨q, hq, rfl⟩ := List.mem_map.mp hp'
    obtain ⟨p, hpmem, rfl⟩ := List.mem_map.mp hq
    obtain ⟨w1, w2⟩ := secretsWitnessUpdate_keeps
      (state.players.find? (fun q => q.role = "murderer"))
      (state.players.find? (fun q => q.role = "accomplice"))
      (secretsSolutionUpdate sol p)
    obtain ⟨s1, s2, _, _, _⟩ := secretsSolutionUpdate_spec sol p
    obtain ⟨ws1, ws2⟩ := secretsWitnessUpdate_spec
      (state.players.find? (fun q => q.role = "murderer"))
      (state.players.find? (fun q => q.role = "accomplice"))
      (secretsSolutionUpdate sol p)
    obtain ⟨f1, f2, _, _⟩ := secretsWitnessUpdate_fields
      (state.players.find? (fun q => q.role = "murderer"))
      (state.players.find? (fun q => q.role = "accomplice"))
      (secretsSolutionUpdate sol p)
    obtain ⟨e1, e2, _, _⟩ := secretsSolutionUpdate_fields sol p
    have hrole : (secretsWitnessUpdate _ _ (secretsSolutionUpdate sol p)).role = p.role :=
      f2.trans e2
    have hfindm := find?_role_pid_congr state.players
      (apply_solution_and_secrets state sol).players "murderer"
      (by
        show ((state.players.map (secretsSolutionUpdate sol)).map _).length = _
        simp)
      (apply_players_positionwise state sol)
    have hfinda := find?_role_pid_congr state.players
      (apply_solution_and_secrets state sol).players "accomplice"
      (by
        show ((state.players.map (secretsSolutionUpdate sol)).map _).length = _
        simp)
      (apply_players_positionwise state sol)
    refine ⟨?_, ?_, ?_, ?_⟩
    · intro hin
      rw [hrole] at hin
      exact ⟨w1.trans (s1 hin).1, w2.trans (s1 hin).2⟩
    · intro hnin
      rw [hrole] at hnin
      exact ⟨w1.trans (s2 hnin).1, w2.trans (s2 hnin).2⟩
    · intro hw
      rw [hrole] at hw
      refine ⟨(ws1 (by rw [e2]; exact hw)).1, ?_, ?_⟩
      · rw [(ws1 (by rw [e2]; exact hw)).2.1, hfindm]
      · rw [(ws1 (by rw [e2]; exact hw)).2.2, hfinda]
    · intro hnw
      rw [hrole] at hnw
      exact ws2 (by rw [e2]; exact hnw)

/-- Every dispatcher step preserves the secret-knowledge shape. -/
theorem stepDispatch_preserves_secretsApplied {s s' : GameState}
    (h : StepDispatch s s') (hinv : SecretsApplied s) : SecretsApplied s' := by
  obtain ⟨pid, payload, assets, now, res, hok, hst⟩ := h
  subst hst
  cases payload with
  | murder c m =>
    obtain ⟨st, i, pl, hstored, _, _, _, _, _, _, hshape⟩ :=
      set_murder_solution_ok_shape (dispatch_murder_ok_inv hok)
    injection hstored with hst
    subst hst
    rw [hshape]
    exact secretsApplied_of_apply s { means_id := m, clue_id := c }
  | fs_scene loc cause =>
    obtain ⟨st, i, pl, hstored, _, _, _, _, _, _, hshape⟩ :=
      set_fs_scene_selection_ok_shape (dispatch_fs_scene_ok_inv hok)
    injection hstored with hst
    subst hst
    rw [hshape]
    exact hinv
  | discuss comments =>
    obtain ⟨st, i, hstored, _, _, hshape⟩ :=
      add_discussion_comment_ok_shape (dispatch_discuss_ok_inv hok)
    injection hstored with hst
    subst hst
    rw [hshape]
    exact hinv
  | solve murderer clue means =>
    obtain ⟨st, i, pl, sol, hstored, hidx, hget, _, _, _, _, hcases⟩ :=
      submit_solution_guess_ok_shape (dispatch_solve_ok_inv hok)
    injection hstored with hst
    subst hst
    cases hcases with
    | inl hc =>
      rw [hc.2.2.2]
      exact ⟨hinv.1, hinv.2⟩
    | inr hc =>
      rw [hc.2]
      have hpos : ∀ j p q, s.players.get? j = some p →
          (s.players.set i { pl with has_badge := false }).get? j = some q →
          q.role = p.role ∧ q.player_id = p.player_id := by
        intro j p q hp hq
        rw [List.get?_set] at hq
        by_cases hij : i = j
        · rw [if_pos hij] at hq
          rw [hp] at hq
          injection hq with hq
          subst hq
          subst hij
          rw [hp] at hget
          injection hget with hget
          subst hget
          exact ⟨rfl, rfl⟩
        · rw [if_neg hij] at hq
          rw [hp] at hq
          injection hq with hq
          subst hq
          exact ⟨rfl, rfl⟩
      have hlen : (s.players.set i { pl with has_badge := false }).length
          = s.players.length := List.length_set s.players i _
      have hfm := find?_role_pid_congr s.players
        (s.players.set i { pl with has_badge := false }) "murderer" hlen hpos
      have hfa := find?_role_pid_congr s.players
        (s.players.set i { pl with has_badge := false }) "accomplice" hlen hpos
      refine ⟨hinv.1, ?_⟩
      intro p' hp'
      replace hp' : p' ∈ s.players.set i { pl with has_badge := false } := hp'
      rcases List.mem_or_eq_of_mem_set hp' with hmem | rfl
      · have hcl := hinv.2 p' hmem
        refine ⟨hcl.1, hcl.2.1, ?_, hcl.2.2.2⟩
        intro hw
        obtain ⟨k1, k2, k3⟩ := hcl.2.2.1 hw
        exact ⟨k1, k2.trans hfm.symm, k3.trans hfa.symm⟩
      · have hplmem : pl ∈ s.players := List.get?_mem hget
        have hcl := hinv.2 pl hplmem
        refine ⟨fun hin => (hcl.1 hin), fun hnin => (hcl.2.1 hnin), ?_,
          fun hnw => hcl.2.2.2 hnw⟩
        intro hw
        obtain ⟨k1, k2, k3⟩ := hcl.2.2.1 hw
        exact ⟨k1, k2.trans hfm.symm, k3.trans hfa.symm⟩

/-- C7: once the murder solution has been applied by a successful murder
pick, every state reachable through the dispatcher satisfies the
secret-knowledge shape: exactly forensic scientist / murderer / accomplice
have `knows_solution` with a populated copy equal to the game solution; the
witness (when present) has `knows_identities` with the murderer's and
accomplice's ids but never a solution copy; everyone else has neither. -/
theorem c7_secrets_invariant_reachable :
    ∀ (stored : Option GameState) (pid clue means : String) (now : Nat) (s0 s : GameState),
      set_murder_solution stored pid clue means now = .ok s0 →
      Relation.ReflTransGen StepDispatch s0 s →
      SecretsApplied s := by
  intro stored pid clue means now s0 s hok htr
  have h0 : SecretsApplied s0 := by
    obtain ⟨st, i, pl, hstored, _, _, _, _, _, _, hshape⟩ :=
      set_murder_solution_ok_shape hok
    rw [hshape]
    exact secretsApplied_of_apply st { means_id := means, clue_id := clue }
  induction htr with
  | refl => exact h0
  | tail _ hstep ih => exact stepDispatch_preserves_secretsApplied hstep ih

/-- C7 (witness): after the murder pick in the concrete six-player game
(with accomplice and witness), the resulting state satisfies the
secret-knowledge shape. -/
theorem c7_witness :
    SecretsApplied (save_game 3
      { apply_solution_and_secrets gMurder6 { means_id := "axe", clue_id := "blood" } with
        phase := .setup_awaiting_fs_scene_pick }) :=
  c7_secrets_invariant_reachable (some gMurder6) "p2" "blood" "axe" 3
    (save_game 3
      { apply_solution_and_secrets gMurder6 { means_id := "axe", clue_id := "blood" } with
        phase := .setup_awaiting_fs_scene_pick })
    (save_game 3
      { apply_solution_and_secrets gMurder6 { means_id := "axe", clue_id := "blood" } with
        phase := .setup_awaiting_fs_scene_pick })
    (by decide) Relation.ReflTransGen.refl

/-! ## Dealing lemmas (for C8) -/

theorem dealResetFlags_role (p : PlayerState) : (dealResetFlags p).role = p.role := by
  unfold dealResetFlags
  dsimp only
  split <;> rfl

theorem nonFSCount_cons_fs {p : PlayerState} (ps : List PlayerState)
    (hfs : p.role = "forensic_scientist") :
    nonFSCount (p :: ps) = nonFSCount ps := by
  simp [nonFSCount, List.filter_cons, hfs]

theorem nonFSCount_cons_nonfs {p : PlayerState} (ps : List PlayerState)
    (hfs : ¬ p.role = "forensic_scientist") :
    nonFSCount (p :: ps) = nonFSCount ps + 1 := by
  simp [nonFSCount, List.filter_cons, hfs]

theorem deal_hands_player_eq_fs {hs : Nat} {p : PlayerState} {md cd : List String}
    (hfs : p.role = "forensic_scientist") :
    deal_hands_player hs p md cd
      = .ok ({ dealResetFlags p with hand := { means_ids := [], clue_ids := [] } }, md, cd) := by
  unfold deal_hands_player
  rw [if_pos (by rw [dealResetFlags_role]; exact hfs)]

theorem deal_hands_player_eq_nonfs {hs : Nat} {p : PlayerState} {md cd : List String}
    (hfs : ¬ p.role = "forensic_scientist") (hm : hs ≤ md.length) (hc : hs ≤ cd.length) :
    deal_hands_player hs p md cd
      = .ok ({ dealResetFlags p with
               hand := { means_ids := md.take hs, clue_ids := cd.take hs } },
          md.drop hs, cd.drop hs) := by
  unfold deal_hands_player pop_n
  rw [if_neg (by rw [dealResetFlags_role]; exact hfs), if_neg (not_lt.mpr hm),
    if_neg (not_lt.mpr hc)]
  rfl

theorem deal_hands_player_md_short {hs : Nat} {p : PlayerState} {md cd : List String}
    (hfs : ¬ p.role = "forensic_scientist") (hm : md.length < hs) :
    deal_hands_player hs p md cd = .error ⟨.valueError, "Not enough cards in deck"⟩ := by
  unfold deal_hands_player pop_n
  rw [if_neg (by rw [dealResetFlags_role]; exact hfs), if_pos hm]
  rfl

theorem deal_hands_player_cd_short {hs : Nat} {p : PlayerState} {md cd : List String}
    (hfs : ¬ p.role = "forensic_scientist") (hm : hs ≤ md.length) (hc : cd.length < hs) :
    deal_hands_player hs p md cd = .error ⟨.valueError, "Not enough cards in deck"⟩ := by
  unfold deal_hands_player pop_n
  rw [if_neg (by rw [dealResetFlags_role]; exact hfs), if_neg (not_lt.mpr hm), if_pos hc]
  rfl

theorem deal_hands_loop_ok_iff (hs : Nat) :
    ∀ (players : List PlayerState) (md cd : List String),
      (deal_hands_loop hs players md cd).isOk = true
        ↔ (hs * nonFSCount players ≤ md.length ∧ hs * nonFSCount players ≤ cd.length) := by
  intro players
  induction players with
  | nil =>
    intro md cd
    simp [deal_hands_loop, nonFSCount, Except.isOk, Except.toBool]
  | cons p ps ih =>
    intro md cd
    by_cases hfs : p.role = "forensic_scientist"
    · rw [nonFSCount_cons_fs ps hfs]
      unfold deal_hands_loop
      simp only [deal_hands_player_eq_fs hfs, except_bind_ok]
      rw [← ih md cd]
      cases hl : deal_hands_loop hs ps md cd <;>
        simp [except_bind_ok, except_bind_err, hl, Except.isOk, Except.toBool]
    · rw [nonFSCount_cons_nonfs ps hfs]
      by_cases hm : hs ≤ md.length
      · by_cases hc : hs ≤ cd.length
        · unfold deal_hands_loop
          simp only [deal_hands_player_eq_nonfs hfs hm hc, except_bind_ok]
          have hiter := ih (md.drop hs) (cd.drop hs)
          rw [List.length_drop, List.length_drop] at hiter
          constructor
          · intro hok
            have : hs * nonFSCount ps ≤ md.length - hs ∧ hs * nonFSCount ps ≤ cd.length - hs := by
              apply hiter.mp
              revert hok
              cases hl : deal_hands_loop hs ps (md.drop hs) (cd.drop hs) <;>
                simp [except_bind_ok, except_bind_err, hl, Except.isOk, Except.toBool]
            constructor
            · have := this.1
              have h2 : hs * (nonFSCount ps + 1) = hs * nonFSCount ps + hs := by ring
              omega
            · have := this.2
              have h2 : hs * (nonFSCount ps + 1) = hs * nonFSCount ps + hs := by ring
              omega
          · intro hlen
            have : hs * nonFSCount ps ≤ md.length - hs ∧ hs * nonFSCount ps ≤ cd.length - hs := by
              constructor
              · have := hlen.1
                have h2 : hs * (nonFSCount ps + 1) = hs * nonFSCount ps + hs := by ring
                omega
              · have := hlen.2
                have h2 : hs * (nonFSCount ps + 1) = hs * nonFSCount ps + hs := by ring
                omega
            have hok := hiter.mpr this
            revert hok
            cases hl : deal_hands_loop hs ps (md.drop hs) (cd.drop hs) <;>
              simp [except_bind_ok, except_bind_err, hl, Except.isOk, Except.toBool]
        · unfold deal_hands_loop
          simp only [deal_hands_player_cd_short hfs hm (not_le.mp hc), except_bind_err]
          simp only [Except.isOk, Except.toBool]
          constructor
          · intro h
            exact absurd h (by simp)
          · intro hlen
            have := hlen.2
            have h2 : hs ≤ hs * (nonFSCount ps + 1) := by nlinarith
            omega
      · unfold deal_hands_loop
        simp only [deal_hands_player_md_short hfs (not_le.mp hm), except_bind_err]
        simp only [Except.isOk, Except.toBool]
        constructor
        · intro h
          exact absurd h (by simp)
        · intro hlen
          have := hlen.1
          have h2 : hs ≤ hs * (nonFSCount ps + 1) := by nlinarith
          omega

theorem deal_hands_loop_shape (hs : Nat) :
    ∀ (players : List PlayerState) (md cd : List String) (ps' : List PlayerState),
      deal_hands_loop hs players md cd = .ok ps' →
      ps'.length = players.length
      ∧ (ps'.map (fun p => p.hand.means_ids)).flatten = md.take (hs * nonFSCount players)
      ∧ (ps'.map (fun p => p.hand.clue_ids)).flatten = cd.take (hs * nonFSCount players)
      ∧ (∀ p' ∈ ps',
          (p'.role = "forensic_scientist" → p'.hand.means_ids = [] ∧ p'.hand.clue_ids = [])
          ∧ (p'.role ≠ "forensic_scientist" →
              p'.hand.means_ids.length = hs ∧ p'.hand.clue_ids.length = hs)) := by
  intro players
  induction players with
  | nil =>
    intro md cd ps' h
    injection h with h
    subst h
    refine ⟨rfl, by simp [nonFSCount], by simp [nonFSCount], by simp⟩
  | cons p ps ih =>
    intro md cd ps' h
    unfold deal_hands_loop at h
    by_cases hfs : p.role = "forensic_scientist"
    · rw [deal_hands_player_eq_fs hfs] at h
      simp only [except_bind_ok] at h
      cases hl : deal_hands_loop hs ps md cd with
      | error e =>
        rw [hl, except_bind_err] at h
        exact absurd h (by simp)
      | ok tail =>
        rw [hl, except_bind_ok] at h
        injection h with h
        subst h
        obtain ⟨l1, l2, l3, l4⟩ := ih md cd tail hl
        rw [nonFSCount_cons_fs ps hfs]
        refine ⟨by simp [l1], by simpa using l2, by simpa using l3, ?_⟩
        intro q hq
        rcases List.mem_cons.mp hq with hhead | hmem
        · subst hhead
          exact ⟨fun _ => ⟨rfl, rfl⟩,
            fun hne => absurd ((dealResetFlags_role p).trans hfs) hne⟩
        · exact l4 q hmem
    · by_cases hm : hs ≤ md.length
      · by_cases hc : hs ≤ cd.length
        · rw [deal_hands_player_eq_nonfs hfs hm hc] at h
          simp only [except_bind_ok] at h
          cases hl : deal_hands_loop hs ps (md.drop hs) (cd.drop hs) with
          | error e =>
            rw [hl, except_bind_err] at h
            exact absurd h (by simp)
          | ok tail =>
            rw [hl, except_bind_ok] at h
            injection h with h
            subst h
            obtain ⟨l1, l2, l3, l4⟩ := ih (md.drop hs) (cd.drop hs) tail hl
            rw [nonFSCount_cons_nonfs ps hfs]
            have hmul : hs * (nonFSCount ps + 1) = hs + hs * nonFSCount ps := by ring
            refine ⟨by simp [l1], ?_, ?_, ?_⟩
            · show md.take hs ++ (tail.map (fun p => p.hand.means_ids)).flatten
                = md.take (hs * (nonFSCount ps + 1))
              rw [l2, hmul, List.take_add md hs (hs * nonFSCount ps)]
            · show cd.take hs ++ (tail.map (fun p => p.hand.clue_ids)).flatten
                = cd.take (hs * (nonFSCount ps + 1))
              rw [l3, hmul, List.take_add cd hs (hs * nonFSCount ps)]
            · intro q hq
              rcases List.mem_cons.mp hq with hhead | hmem
              · subst hhead
                refine ⟨fun hq' => absurd ((dealResetFlags_role p).symm.trans hq') hfs, ?_⟩
                intro _
                constructor
                · show (md.take hs).length = hs
                  rw [List.length_take]
                  exact Nat.min_eq_left hm
                · show (cd.take hs).length = hs
                  rw [List.length_take]
                  exact Nat.min_eq_left hc
              · exact l4 q hmem
        · rw [deal_hands_player_cd_short hfs hm (not_le.mp hc), except_bind_err] at h
          exact absurd h (by simp)
      · rw [deal_hands_player_md_short hfs (not_le.mp hm), except_bind_err] at h
        exact absurd h (by simp)

/-- C8: for any player list of a valid size and Nodup (already shuffled)
decks, `deal_hands` succeeds exactly when each deck holds at least
`4 * (number of non-FS players)` cards — failing loudly otherwise — and on
success every non-forensic-scientist player ends with exactly 4 distinct
means ids and 4 distinct clue ids, drawn without replacement so that no id
appears in two different players' hands of the same card type, while the
forensic scientist's hand is empty. -/
theorem c8_deal_hands :
    ∀ (players : List PlayerState) (md cd : List String),
      4 ≤ players.length → players.length ≤ 12 →
      md.Nodup → cd.Nodup →
      (((deal_hands players md cd).isOk = true)
        ↔ (4 * nonFSCount players ≤ md.length ∧ 4 * nonFSCount players ≤ cd.length))
      ∧ (∀ ps', deal_hands players md cd = .ok ps' →
          ps'.length = players.length
          ∧ (∀ p' ∈ ps',
              (p'.role = "forensic_scientist" →
                p'.hand.means_ids = [] ∧ p'.hand.clue_ids = [])
              ∧ (p'.role ≠ "forensic_scientist" →
                  p'.hand.means_ids.length = 4 ∧ p'.hand.means_ids.Nodup
                  ∧ p'.hand.clue_ids.length = 4 ∧ p'.hand.clue_ids.Nodup))
          ∧ List.Pairwise (fun a b => a.hand.means_ids.Disjoint b.hand.means_ids) ps'
          ∧ List.Pairwise (fun a b => a.hand.clue_ids.Disjoint b.hand.clue_ids) ps') := by
  intro players md cd _ _ hmd hcd
  constructor
  · exact deal_hands_loop_ok_iff 4 players md cd
  · intro ps' h
    obtain ⟨l1, l2, l3, l4⟩ := deal_hands_loop_shape 4 players md cd ps' h
    have hmnd : ((ps'.map (fun p => p.hand.means_ids)).flatten).Nodup := by
      rw [l2]
      exact hmd.sublist (List.take_sublist _ _)
    have hcnd : ((ps'.map (fun p => p.hand.clue_ids)).flatten).Nodup := by
      rw [l3]
      exact hcd.sublist (List.take_sublist _ _)
    obtain ⟨hall_m, hpw_m⟩ := List.nodup_flatten.mp hmnd
    obtain ⟨hall_c, hpw_c⟩ := List.nodup_flatten.mp hcnd
    refine ⟨l1, ?_, List.pairwise_map.mp hpw_m, List.pairwise_map.mp hpw_c⟩
    intro p' hp'
    refine ⟨(l4 p' hp').1, ?_⟩
    intro hne
    obtain ⟨hm4, hc4⟩ := (l4 p' hp').2 hne
    exact ⟨hm4, hall_m _ (List.mem_map_of_mem _ hp'), hc4,
      hall_c _ (List.mem_map_of_mem _ hp')⟩

/-- C8 (witness): with the 4-player fixture (3 non-FS players) and two
12-card Nodup decks, dealing succeeds; with an 11-card means deck it fails. -/
theorem c8_witness :
    (deal_hands playersA meansDeck12 clueDeck12).isOk = true
    ∧ (deal_hands playersA (meansDeck12.take 11) clueDeck12).isOk = false :=
  ⟨((c8_deal_hands playersA meansDeck12 clueDeck12 (by decide) (by decide) (by decide)
      (by decide)).1).mpr (by decide),
   by
    have hiff := (c8_deal_hands playersA (meansDeck12.take 11) clueDeck12 (by decide)
      (by decide) (by decide) (by decide)).1
    revert hiff
    decide⟩

end Deception
